import Mathlib

/-!
OpenALaw: a shallow embedding of `core.js`, `index.js` and `android-core-bridge.js`.

The three source files define the classes `OpenALawCore` (with its helper classes
`TaskScheduler`, `APIBridge`, `OllamaBridge`), `AndroidCoreBridge` and `OpenALaw`.

Modelling conventions.

* A JavaScript string is the list of its UTF-16 code units (`JSString`); `length`,
  `substring`, `includes` and the regular expression all work on code units, as in the
  language.
* A JavaScript value is a `Value`: `undefined`, `null`, booleans, integer numbers, strings,
  arrays and plain data objects (ordered key/value lists, prototype `Object.prototype`).
  Functions, symbols and non-integer numbers are outside the model, so no value is callable.
* An instance is a structure holding its fields.  A method that can throw or touch `this`
  takes the instance and returns the outcome (`Except JSError Value`) paired with the instance
  afterwards; the state is returned on failure too, as an exception leaves earlier
  assignments in place.  `async`/`await` is sequential here: no method suspends on anything
  but an already settled promise, so a rejected promise is the `error` outcome.
* `console.log` writes to the process output only and reads or writes no field, so the text
  it prints is left out.  What is kept of a call is the string conversion of the values
  interpolated in its template literal, for that conversion can throw (`templateLiteral`);
  where the interpolated values are strings by type nothing can throw and nothing is kept.
* `String.prototype.toLowerCase` belongs to the host, not to the repository: every
  definition that calls it takes it as the parameter `lower`.  `asciiToLowerCase` is the
  mapping restricted to ASCII input, and `LowersAscii lower` says that `lower` agrees with
  it there, as the host function does.
* Clock readings (`Date.now()`, `new Date().toISOString()`) are arguments of the method
  that reads the clock.
-/

set_option autoImplicit false

/-! ## Strings -/

/-- A JavaScript string: its sequence of UTF-16 code units. -/
abbrev JSString := List Nat

/-- The code units of a literal written in the Basic Multilingual Plane. -/
def units (s : String) : JSString := s.toList.map Char.toNat

/-- Does `k` start `s`?  (The comparison `includes` makes at one position.) -/
def startsWith : JSString → JSString → Bool
  | _, [] => true
  | [], _ :: _ => false
  | c :: cs, k :: ks => c == k && startsWith cs ks

/-- The method `String.prototype.includes(k)`: scan every start position of `s` from the left. -/
def includes : JSString → JSString → Bool
  | [], k => startsWith [] k
  | c :: cs, k => startsWith (c :: cs) k || includes cs k

/-- The method `String.prototype.substring(a, b)`: the units from `min a b` up to `max a b`,
both clamped to the length. -/
def substring (s : JSString) (a b : Nat) : JSString :=
  (s.take (max a b)).drop (min a b)

/-- ASCII lower-casing: `A`..`Z` (65..90) move to `a`..`z`, every other unit stays. -/
def asciiToLowerCase (s : JSString) : JSString :=
  s.map (fun c => if 65 ≤ c ∧ c ≤ 90 then c + 32 else c)

/-- The lower-casing function `lower` acts on ASCII strings as `toLowerCase` does. -/
def LowersAscii (lower : JSString → JSString) : Prop :=
  ∀ s : JSString, (∀ c ∈ s, c < 128) → lower s = asciiToLowerCase s

/-! ## Values -/

/-- JavaScript values that the three files pass around. -/
inductive Value where
  | undefined
  | null
  | bool (b : Bool)
  | num (n : Int)
  | str (s : JSString)
  | arr (xs : List Value)
  | obj (fields : List (String × Value))

/-- Exceptions: `new Error(message)` thrown by the source, and the host's `TypeError`
for a property read on `null` or `undefined`. -/
inductive JSError where
  | error (message : String)
  | typeError
  deriving DecidableEq

/-- A default parameter `p = d`: the default applies exactly when the argument is `undefined`
(passed so, or omitted). -/
def Value.orDefault (v d : Value) : Value :=
  match v with
  | .undefined => d
  | _ => v

/-- Truthiness (`if (v)`, `!!v`, `v ? a : b`). -/
def Value.truthy : Value → Bool
  | .undefined => false
  | .null => false
  | .bool b => b
  | .num n => n != 0
  | .str s => !s.isEmpty
  | .arr _ => true
  | .obj _ => true

/-- Own-property lookup in an ordered key/value list. -/
def Obj.get {β : Type} : List (String × β) → String → Option β
  | [], _ => none
  | (k, v) :: rest, key => if k = key then some v else Obj.get rest key

/-- Property assignment: an existing key keeps its place and takes the new value, a new key
goes to the end. -/
def Obj.set {β : Type} : List (String × β) → String → β → List (String × β)
  | [], key, v => [(key, v)]
  | (k, w) :: rest, key, v => if k = key then (k, v) :: rest else (k, w) :: Obj.set rest key v

/-- Index keys `"0"`, `"1"`, ... paired with the elements, from index `i` on. -/
def indexed {β : Type} : Nat → List β → List (String × β)
  | _, [] => []
  | i, x :: xs => (toString i, x) :: indexed (i + 1) xs

/-- Object spread `{...v}`: the own enumerable properties of `v`. -/
def Value.spread : Value → List (String × Value)
  | .obj fields => fields
  | .arr xs => indexed 0 xs
  | .str s => indexed 0 (s.map (fun c => Value.str [c]))
  | _ => []

/-- Property read `v.key` for the keys the source reads (`length`, `x`, `y`). -/
def Value.get (v : Value) (key : String) : Except JSError Value :=
  match v with
  | .undefined => .error .typeError
  | .null => .error .typeError
  | .str s => .ok (if key = "length" then .num s.length else .undefined)
  | .arr xs => .ok (if key = "length" then .num xs.length else .undefined)
  | .obj fields => .ok ((Obj.get fields key).getD .undefined)
  | _ => .ok .undefined

mutual
/-- Does the operation `ToString(v)`, which a template literal applies to an interpolated
value, throw?  Primitives convert.  An object is converted by its `toString` method: the
inherited one returns `'[object Object]'`; an own `toString` property hides it and, no value
being callable, neither it nor `valueOf` (own: not callable; inherited: returns the object
itself) yields a primitive, which is a `TypeError`.  An array is converted by `join`. -/
def Value.toStringThrows : Value → Bool
  | .obj fields => (Obj.get fields "toString").isSome
  | .arr xs => Value.joinThrows xs
  | .undefined => false
  | .null => false
  | .bool _ => false
  | .num _ => false
  | .str _ => false
/-- Does `Array.prototype.join` throw on these elements?  It converts each element in turn
(`null` and `undefined` become the empty string). -/
def Value.joinThrows : List Value → Bool
  | [] => false
  | v :: vs => v.toStringThrows || Value.joinThrows vs
end

/-- The evaluation of a template literal that interpolates `values`, kept for its completion
only: the `TypeError` when the conversion of one of the values throws. -/
def templateLiteral (values : List Value) : Except JSError Unit :=
  if values.any Value.toStringThrows then .error .typeError else .ok ()

/-! ## `core.js` -/

/-- Class `TaskScheduler`. -/
structure TaskScheduler where
  config : Value
  queue : List JSString

/-- Class `APIBridge`. -/
structure APIBridge where
  config : Value

/-- Class `OllamaBridge`. -/
structure OllamaBridge where
  config : Value

/-- Class `OpenALawCore`; the three module fields are unset until `initialize`. -/
structure OpenALawCore where
  config : Value
  version : JSString
  architecture : JSString
  platform : JSString
  agentId : JSString
  taskScheduler : Option TaskScheduler
  apiBridge : Option APIBridge
  ollamaBridge : Option OllamaBridge

namespace TaskScheduler

/-- `new TaskScheduler(config)`. -/
def constructor (config : Value) : TaskScheduler :=
  { config := config, queue := [] }

/-- `addTask(task)`: `this.queue.push(task)`. -/
def addTask (self : TaskScheduler) (task : JSString) : Except JSError Value × TaskScheduler :=
  (.ok .undefined, { self with queue := self.queue ++ [task] })

/-- `this.queue.shift()`: the first element is removed and returned; an empty queue gives
`undefined` (here `none`) and stays empty. -/
def shift (self : TaskScheduler) : Option JSString × TaskScheduler :=
  match self.queue with
  | [] => (none, self)
  | task :: rest => (some task, { self with queue := rest })

/-- The `while (this.queue.length > 0)` loop of `processQueue()`, allowed `fuel` iterations.
The result is `none` when the fuel runs out with the queue still non-empty, and otherwise the
values that `shift()` gave, in order, with the scheduler at loop exit. -/
def processQueueLoop : Nat → TaskScheduler → Option (List (Option JSString) × TaskScheduler)
  | 0, self => if self.queue.length > 0 then none else some ([], self)
  | fuel + 1, self =>
    if self.queue.length > 0 then
      let (task, self1) := self.shift
      match processQueueLoop fuel self1 with
      | none => none
      | some (shifted, self2) => some (task :: shifted, self2)
    else
      some ([], self)

/-- `processQueue()`, allowed `fuel` iterations of its loop: it resolves to `undefined`. -/
def processQueue (fuel : Nat) (self : TaskScheduler) :
    Option (Except JSError Value × TaskScheduler) :=
  match processQueueLoop fuel self with
  | none => none
  | some (_, self1) => some (.ok .undefined, self1)

end TaskScheduler

namespace OpenALawCore

/-- `new OpenALawCore(config = {})`. -/
def constructor (config : Value) : OpenALawCore :=
  { config := config.orDefault (.obj [])
    version := units "1.0.0"
    architecture := units "ARM"
    platform := units "Android"
    agentId := units "AgentBot11"
    taskScheduler := none
    apiBridge := none
    ollamaBridge := none }

/-- `loadConfig()`: the config becomes a fresh object, the old one spread and then the three
component fields written over it. -/
def loadConfig (self : OpenALawCore) : OpenALawCore :=
  { self with
    config := .obj (Obj.set (Obj.set (Obj.set self.config.spread
      "platform" (.str self.platform))
      "architecture" (.str self.architecture))
      "agentId" (.str self.agentId)) }

end OpenALawCore

/-- `initialize()`: load the config, build the three modules from it, answer `true`. -/
def OpenALawCore.initialize (self : OpenALawCore) : Except JSError Value × OpenALawCore :=
  let self1 := self.loadConfig
  (.ok (.bool true),
    { self1 with
      taskScheduler := some (TaskScheduler.constructor self1.config)
      apiBridge := some { config := self1.config }
      ollamaBridge := some { config := self1.config } })

namespace OpenALawCore

/-- The list `codeKeywords` of `determineExecutionTarget`. -/
def codeKeywords : List JSString :=
  ["code", "programming", "python", "javascript", "function", "algorithm", "debug"].map units

/-- The list `complexKeywords` of `determineExecutionTarget`. -/
def complexKeywords : List JSString :=
  ["analyze", "think", "summarize", "creative", "complex"].map units

/-- `determineExecutionTarget(task)`. -/
def determineExecutionTarget (lower : JSString → JSString) (task : JSString) : JSString :=
  let taskLower := lower task
  if codeKeywords.any (fun keyword => includes taskLower keyword) then
    units "local"
  else if complexKeywords.any (fun keyword => includes taskLower keyword) then
    units "remote"
  else
    units "local"

/-- `executeLocally(task)`. -/
def executeLocally (self : OpenALawCore) (task : JSString) : Except JSError Value × OpenALawCore :=
  (.ok (.str (units "[LOCAL] Processed: " ++ substring task 0 50 ++ units "...")), self)

/-- `executeRemotely(task)`. -/
def executeRemotely (self : OpenALawCore) (task : JSString) : Except JSError Value × OpenALawCore :=
  (.ok (.str (units "[REMOTE] Processed: " ++ substring task 0 50 ++ units "...")), self)

/-- `processTask(task)` of the Core Agent. -/
def processTask (lower : JSString → JSString) (self : OpenALawCore) (task : JSString) :
    Except JSError Value × OpenALawCore :=
  let executionTarget := determineExecutionTarget lower task
  if executionTarget = units "local" then
    self.executeLocally task
  else
    self.executeRemotely task

/-- `getStatus()` of the Core Agent; `timestamp` is `new Date().toISOString()`. -/
def getStatus (self : OpenALawCore) (timestamp : JSString) : Value :=
  .obj [("version", .str self.version),
        ("architecture", .str self.architecture),
        ("platform", .str self.platform),
        ("agentId", .str self.agentId),
        ("initialized", .bool self.taskScheduler.isSome),
        ("timestamp", .str timestamp)]

end OpenALawCore

/-! ## `android-core-bridge.js` -/

/-- Class `AndroidCoreBridge`.  The registry `systemInterfaces` maps an interface name to the
object of its bound methods; a bound method is kept by its name. -/
structure AndroidCoreBridge where
  initialized : Bool
  permissions : List (String × Value)
  systemInterfaces : List (String × List String)

namespace AndroidCoreBridge

/-- `new AndroidCoreBridge()`. -/
def constructor : AndroidCoreBridge :=
  { initialized := false, permissions := [], systemInterfaces := [] }

/-- The exception of every guarded operation: `new Error('AndroidCoreBridge not initialized')`. -/
def notInitialized : JSError := .error "AndroidCoreBridge not initialized"

/-- `checkPermissions()`. -/
def checkPermissions (self : AndroidCoreBridge) : AndroidCoreBridge :=
  { self with
    permissions := [("accessibility", .bool false), ("overlay", .bool false),
                    ("usageStats", .bool false), ("inputMethod", .bool false)] }

/-- `initDisplayInterface()`. -/
def initDisplayInterface (self : AndroidCoreBridge) : AndroidCoreBridge :=
  { self with
    systemInterfaces := Obj.set self.systemInterfaces "display"
      ["captureScreen", "getScreenInfo", "simulateTouch", "simulateGesture"] }

/-- `initInputInterface()`. -/
def initInputInterface (self : AndroidCoreBridge) : AndroidCoreBridge :=
  { self with
    systemInterfaces := Obj.set self.systemInterfaces "input"
      ["sendKeyEvent", "sendText", "swipe", "tap", "pressAndHold"] }

/-- `initAccessibilityInterface()`. -/
def initAccessibilityInterface (self : AndroidCoreBridge) : AndroidCoreBridge :=
  { self with
    systemInterfaces := Obj.set self.systemInterfaces "accessibility"
      ["getCurrentFocus", "traverseUI", "findElement", "performAction"] }

/-- `captureScreen(options = {})`; `now` is `Date.now()`. -/
def captureScreen (self : AndroidCoreBridge) (options : Value) (now : Int) :
    Except JSError Value × AndroidCoreBridge :=
  let _options := options.orDefault (.obj [])
  if !self.initialized then
    (.error notInitialized, self)
  else
    (.ok (.obj [("success", .bool true),
                ("imageData", .null),
                ("timestamp", .num now),
                ("dimensions", .obj [("width", .num 0), ("height", .num 0)])]), self)

/-- `getScreenInfo()`. -/
def getScreenInfo (self : AndroidCoreBridge) : Except JSError Value × AndroidCoreBridge :=
  if !self.initialized then
    (.error notInitialized, self)
  else
    (.ok (.obj [("width", .num 0), ("height", .num 0), ("density", .num 0),
                ("orientation", .str (units "portrait"))]), self)

/-- `simulateTouch(x, y, action = 'tap')`. -/
def simulateTouch (self : AndroidCoreBridge) (x y action : Value) :
    Except JSError Value × AndroidCoreBridge :=
  let action := action.orDefault (.str (units "tap"))
  if !self.initialized then
    (.error notInitialized, self)
  else
    match templateLiteral [action, x, y] with
    | .error e => (.error e, self)
    | .ok _ =>
      (.ok (.obj [("success", .bool true),
                  ("action", action),
                  ("coordinates", .obj [("x", x), ("y", y)])]), self)

/-- `simulateGesture(startX, startY, endX, endY, duration = 100)`. -/
def simulateGesture (self : AndroidCoreBridge) (startX startY endX endY duration : Value) :
    Except JSError Value × AndroidCoreBridge :=
  let duration := duration.orDefault (.num 100)
  if !self.initialized then
    (.error notInitialized, self)
  else
    match templateLiteral [startX, startY, endX, endY, duration] with
    | .error e => (.error e, self)
    | .ok _ =>
      (.ok (.obj [("success", .bool true),
                  ("gesture", .str (units "swipe")),
                  ("start", .obj [("x", startX), ("y", startY)]),
                  ("end", .obj [("x", endX), ("y", endY)]),
                  ("duration", duration)]), self)

/-- `sendKeyEvent(keyCode, action = 'press')`. -/
def sendKeyEvent (self : AndroidCoreBridge) (keyCode action : Value) :
    Except JSError Value × AndroidCoreBridge :=
  let action := action.orDefault (.str (units "press"))
  if !self.initialized then
    (.error notInitialized, self)
  else
    match templateLiteral [keyCode, action] with
    | .error e => (.error e, self)
    | .ok _ =>
      (.ok (.obj [("success", .bool true), ("keyCode", keyCode), ("action", action)]), self)

/-- `sendText(text)`; the log line converts `text`, then the record reads `text.length`,
which throws on `null`/`undefined`. -/
def sendText (self : AndroidCoreBridge) (text : Value) :
    Except JSError Value × AndroidCoreBridge :=
  if !self.initialized then
    (.error notInitialized, self)
  else
    match templateLiteral [text] with
    | .error e => (.error e, self)
    | .ok _ =>
      match text.get "length" with
      | .error e => (.error e, self)
      | .ok length =>
        (.ok (.obj [("success", .bool true), ("text", text), ("length", length)]), self)

/-- `swipe(startX, startY, endX, endY, steps = 10)`. -/
def swipe (self : AndroidCoreBridge) (startX startY endX endY steps : Value) :
    Except JSError Value × AndroidCoreBridge :=
  let _steps := steps.orDefault (.num 10)
  self.simulateGesture startX startY endX endY (.num 200)

/-- `tap(x, y)`. -/
def tap (self : AndroidCoreBridge) (x y : Value) : Except JSError Value × AndroidCoreBridge :=
  self.simulateTouch x y (.str (units "tap"))

/-- `pressAndHold(x, y, duration = 1000)`. -/
def pressAndHold (self : AndroidCoreBridge) (x y duration : Value) :
    Except JSError Value × AndroidCoreBridge :=
  let duration := duration.orDefault (.num 1000)
  if !self.initialized then
    (.error notInitialized, self)
  else
    match templateLiteral [x, y, duration] with
    | .error e => (.error e, self)
    | .ok _ =>
      (.ok (.obj [("success", .bool true),
                  ("action", .str (units "pressAndHold")),
                  ("coordinates", .obj [("x", x), ("y", y)]),
                  ("duration", duration)]), self)

/-- `getCurrentFocus()`. -/
def getCurrentFocus (self : AndroidCoreBridge) : Except JSError Value × AndroidCoreBridge :=
  if !self.initialized then
    (.error notInitialized, self)
  else
    (.ok (.obj [("success", .bool true), ("element", .null), ("packageName", .null)]), self)

/-- `traverseUI()`. -/
def traverseUI (self : AndroidCoreBridge) : Except JSError Value × AndroidCoreBridge :=
  if !self.initialized then
    (.error notInitialized, self)
  else
    (.ok (.obj [("success", .bool true), ("hierarchy", .null)]), self)

/-- `findElement(criteria)`. -/
def findElement (self : AndroidCoreBridge) (_criteria : Value) :
    Except JSError Value × AndroidCoreBridge :=
  if !self.initialized then
    (.error notInitialized, self)
  else
    (.ok (.obj [("success", .bool true), ("elements", .arr [])]), self)

/-- `performAction(elementId, action)`. -/
def performAction (self : AndroidCoreBridge) (elementId action : Value) :
    Except JSError Value × AndroidCoreBridge :=
  if !self.initialized then
    (.error notInitialized, self)
  else
    match templateLiteral [action, elementId] with
    | .error e => (.error e, self)
    | .ok _ =>
      (.ok (.obj [("success", .bool true), ("elementId", elementId), ("action", action)]),
        self)

/-- `getStatus()` of the bridge; `timestamp` is `new Date().toISOString()`. -/
def getStatus (self : AndroidCoreBridge) (timestamp : JSString) : Value :=
  .obj [("initialized", .bool self.initialized),
        ("permissions", .obj self.permissions),
        ("interfaces", .arr (self.systemInterfaces.map (fun entry => .str (units entry.1)))),
        ("architecture", .str (units "ARM")),
        ("platform", .str (units "Android")),
        ("timestamp", .str timestamp)]

end AndroidCoreBridge

/-- `initialize()` of the bridge: permissions, the three interfaces, then the flag. -/
def AndroidCoreBridge.initialize (self : AndroidCoreBridge) :
    Except JSError Value × AndroidCoreBridge :=
  let self1 := self.checkPermissions
  let self2 := self1.initDisplayInterface
  let self3 := self2.initInputInterface
  let self4 := self3.initAccessibilityInterface
  (.ok (.bool true), { self4 with initialized := true })

/-! ## `index.js` -/

/-- The class `\d` of the regular expression (no `u` flag): the ASCII digits `0`..`9`. -/
def isDigit (c : Nat) : Bool := decide (48 ≤ c) && decide (c ≤ 57)

/-- The class `\D`: every code unit that is not in `\d`. -/
def isNonDigit (c : Nat) : Bool := !isDigit c

/-- Greedy `p+` once a first unit is taken: `taken` is what the group holds so far.  The
longer match is tried first; when the continuation `k` fails on it, the matcher backs off to
the shorter one. -/
def greedyMore {α : Type} (p : Nat → Bool) (k : JSString → JSString → Option α) :
    JSString → JSString → Option α
  | taken, [] => k taken []
  | taken, c :: cs =>
    if p c then
      match greedyMore p k (taken ++ [c]) cs with
      | some r => some r
      | none => k taken (c :: cs)
    else
      k taken (c :: cs)

/-- Greedy `p+` followed by the continuation `k`, which receives the units matched and the
rest of the input. -/
def greedyPlus {α : Type} (p : Nat → Bool) (k : JSString → JSString → Option α) :
    JSString → Option α
  | [] => none
  | c :: cs => if p c then greedyMore p k [c] cs else none

/-- One match of `coordRegex`: the two groups, the separator between them, and the input left
after the match. -/
structure CoordMatch where
  x : JSString
  sep : JSString
  y : JSString
  rest : JSString
  deriving DecidableEq

/-- The pattern `(\d+)\D+(\d+)` anchored at the start of `s`. -/
def coordRegexAt (s : JSString) : Option CoordMatch :=
  greedyPlus isDigit (fun x r1 =>
    greedyPlus isNonDigit (fun sep r2 =>
      greedyPlus isDigit (fun y r3 => some { x := x, sep := sep, y := y, rest := r3 }) r2) r1) s

/-- The leftmost match: the pattern is tried at each start position in turn. -/
def coordRegexSearch : JSString → Option CoordMatch
  | [] => none
  | c :: cs =>
    match coordRegexAt (c :: cs) with
    | some m => some m
    | none => coordRegexSearch cs

/-- The matches `matchAll` yields, each as `[whole, x, y]`; the next search starts where the
last match ended.  A match is at least three units long, so `fuel = length` is enough. -/
def matchAllFuel : Nat → JSString → List (JSString × JSString × JSString)
  | 0, _ => []
  | fuel + 1, s =>
    match coordRegexSearch s with
    | none => []
    | some m => (m.x ++ m.sep ++ m.y, m.x, m.y) :: matchAllFuel fuel m.rest

/-- `[...task.matchAll(coordRegex)]`. -/
def matchAll (task : JSString) : List (JSString × JSString × JSString) :=
  matchAllFuel task.length task

/-- `parseInt(s)` for a string of decimal digits, as a captured group is: the integer the
digits denote.  The source's number is a double, which is this integer below `2 ^ 53` and the
nearest double from there on; the model keeps the integer. -/
def parseInt (s : JSString) : Nat :=
  s.foldl (fun value c => 10 * value + (c - 48)) 0

/-- Class `OpenALaw`; `core` and `bridge` are `null` until `initialize`. -/
structure OpenALaw where
  config : Value
  version : JSString
  architecture : JSString
  platform : JSString
  agentId : JSString
  core : Option OpenALawCore
  bridge : Option AndroidCoreBridge

namespace OpenALaw

/-- `new OpenALaw(config = {})`. -/
def constructor (config : Value) : OpenALaw :=
  { config := config.orDefault (.obj [])
    version := units "1.0.0"
    architecture := units "ARM"
    platform := units "Android"
    agentId := units "AgentBot11"
    core := none
    bridge := none }

/-- The list `systemKeywords` of `requiresSystemInteraction`. -/
def systemKeywords : List JSString :=
  ["screen", "touch", "click", "swipe", "tap", "gesture",
   "app", "application", "interface", "ui", "view", "input",
   "keyboard", "navigation", "activity", "window", "notification"].map units

/-- `requiresSystemInteraction(task)`. -/
def requiresSystemInteraction (lower : JSString → JSString) (task : JSString) : Bool :=
  let taskLower := lower task
  systemKeywords.any (fun keyword => includes taskLower keyword)

/-- `extractCoordinates(task)`. -/
def extractCoordinates (task : JSString) : Value :=
  match matchAll task with
  | (_, x, y) :: _ => .obj [("x", .num (parseInt x)), ("y", .num (parseInt y))]
  | [] => .null

/-- The fall-through result of `handleSystemTask`. -/
def notImplemented : Value :=
  .obj [("success", .bool false), ("reason", .str (units "System task not implemented yet"))]

/-- `handleSystemTask(task)`; `now` is the clock reading `captureScreen` takes. -/
def handleSystemTask (lower : JSString → JSString) (self : OpenALaw) (task : JSString)
    (now : Int) : Except JSError Value × OpenALaw :=
  if includes (lower task) (units "screen") then
    match self.bridge with
    | none => (.error .typeError, self)
    | some bridge =>
      let (result, bridge1) := bridge.captureScreen .undefined now
      (result, { self with bridge := some bridge1 })
  else if includes (lower task) (units "touch") || includes (lower task) (units "click") then
    let coords := extractCoordinates task
    if coords.truthy then
      match self.bridge with
      | none => (.error .typeError, self)
      | some bridge =>
        match coords.get "x" with
        | .error e => (.error e, self)
        | .ok x =>
          match coords.get "y" with
          | .error e => (.error e, self)
          | .ok y =>
            let (result, bridge1) := bridge.tap x y
            (result, { self with bridge := some bridge1 })
    else
      (.ok notImplemented, self)
  else
    (.ok notImplemented, self)

/-- `processTask(task)` of the Orchestrator. -/
def processTask (lower : JSString → JSString) (self : OpenALaw) (task : JSString)
    (now : Int) : Except JSError Value × OpenALaw :=
  match self.core with
  | none => (.error .typeError, self)
  | some core =>
    match core.processTask lower task with
    | (.error e, core1) => (.error e, { self with core := some core1 })
    | (.ok coreResult, core1) =>
      let self1 := { self with core := some core1 }
      if requiresSystemInteraction lower task then
        match handleSystemTask lower self1 task now with
        | (.error e, self2) => (.error e, self2)
        | (.ok systemResult, self2) =>
          (.ok (.obj [("core", coreResult), ("system", systemResult), ("combined", .bool true)]),
            self2)
      else
        (.ok coreResult, self1)

/-- `getStatus()` of the Orchestrator; the three timestamps are those read by the Core
Agent's status, the bridge's status and the Orchestrator's own record, in that order. -/
def getStatus (self : OpenALaw) (coreTime bridgeTime timestamp : JSString) : Value :=
  .obj [("version", .str self.version),
        ("architecture", .str self.architecture),
        ("platform", .str self.platform),
        ("agentId", .str self.agentId),
        ("core", match self.core with
                 | some core => core.getStatus coreTime
                 | none => .null),
        ("bridge", match self.bridge with
                   | some bridge => bridge.getStatus bridgeTime
                   | none => .null),
        ("timestamp", .str timestamp)]

/-- `reportStatus()`: reads both statuses and prints them; nothing is assigned or returned. -/
def reportStatus (self : OpenALaw) : Except JSError Value × OpenALaw :=
  (.ok .undefined, self)

end OpenALaw

/-- `initialize()` of the Orchestrator: a Core Agent built from the Orchestrator's config and
initialized, then a bridge built and initialized; `reportStatus()` only prints. -/
def OpenALaw.initialize (self : OpenALaw) : Except JSError Value × OpenALaw :=
  let core := OpenALawCore.constructor self.config
  let self1 := { self with core := some core }
  match OpenALawCore.initialize core with
  | (.error e, core1) => (.error e, { self1 with core := some core1 })
  | (.ok _, core1) =>
    let self2 := { self1 with core := some core1 }
    let bridge := AndroidCoreBridge.constructor
    let self3 := { self2 with bridge := some bridge }
    match AndroidCoreBridge.initialize bridge with
    | (.error e, bridge1) => (.error e, { self3 with bridge := some bridge1 })
    | (.ok _, bridge1) => (.ok (.bool true), { self3 with bridge := some bridge1 })

/-! ## Vocabulary of the statements -/

/-- The maximal runs of digits of `t`, left to right: `t` is cut at every non-digit and the
empty pieces are dropped. -/
def digitRuns (t : JSString) : List JSString :=
  (t.splitOnP isNonDigit).filter (fun run => !run.isEmpty)

/-- The number that a run of ASCII digits denotes in base ten. -/
def decimalValue (run : JSString) : Nat :=
  Nat.ofDigits 10 (run.reverse.map (fun c => c - 48))

/-- The string `t` contains an occurrence of: one or more digits, then one or more
non-digits, then one or more digits. -/
def HasCoordPattern (t : JSString) : Prop :=
  ∃ pre a m b post : JSString, t = pre ++ (a ++ (m ++ (b ++ post))) ∧
    a ≠ [] ∧ (∀ c ∈ a, isDigit c = true) ∧
    m ≠ [] ∧ (∀ c ∈ m, isNonDigit c = true) ∧
    b ≠ [] ∧ (∀ c ∈ b, isDigit c = true)

/-- The match anchored at the start of `s`, read off the runs of `s`: the digits `s` starts
with, the non-digits after them, the digits after those. -/
def runsAt (s : JSString) : Option CoordMatch :=
  let x := s.takeWhile isDigit
  let r1 := s.dropWhile isDigit
  let sep := r1.takeWhile isNonDigit
  let r2 := r1.dropWhile isNonDigit
  let y := r2.takeWhile isDigit
  let r3 := r2.dropWhile isDigit
  if x ≠ [] ∧ sep ≠ [] ∧ y ≠ [] then some { x := x, sep := sep, y := y, rest := r3 } else none

mutual
/-- Every value that occurs in `v`: `v` itself and, for an array or an object, what occurs in
its elements or in the values of its fields. -/
def Value.parts : Value → List Value
  | .arr xs => .arr xs :: Value.partsList xs
  | .obj fields => .obj fields :: Value.partsFields fields
  | .undefined => [.undefined]
  | .null => [.null]
  | .bool b => [.bool b]
  | .num n => [.num n]
  | .str s => [.str s]
/-- What occurs in the elements of an array. -/
def Value.partsList : List Value → List Value
  | [] => []
  | v :: vs => v.parts ++ Value.partsList vs
/-- What occurs in the values of the fields of an object. -/
def Value.partsFields : List (String × Value) → List Value
  | [] => []
  | (_, v) :: rest => v.parts ++ Value.partsFields rest
end

/-- The bridge after `new AndroidCoreBridge()` and `initialize()`. -/
def AndroidCoreBridge.ready : AndroidCoreBridge :=
  ( AndroidCoreBridge.initialize AndroidCoreBridge.constructor).2

/-- The Core Agent after `new OpenALawCore(config)` and `initialize()`. -/
def OpenALawCore.ready (config : Value) : OpenALawCore :=
  ( OpenALawCore.initialize (OpenALawCore.constructor config)).2

/-- The Orchestrator after `new OpenALaw(config)` and `initialize()`. -/
def OpenALaw.ready (config : Value) : OpenALaw :=
  ( OpenALaw.initialize (OpenALaw.constructor config)).2

/-- The scheduler after `addTask` was called with each of `tasks`, in order. -/
def TaskScheduler.addAll (self : TaskScheduler) (tasks : List JSString) : TaskScheduler :=
  tasks.foldl (fun scheduler task => (scheduler.addTask task).2) self

mutual
/-- The value `v` with every field named `timestamp` left out, at any depth. -/
def Value.withoutTimestamps : Value → Value
  | .arr xs => .arr (Value.withoutTimestampsList xs)
  | .obj fields => .obj (Value.withoutTimestampsFields fields)
  | .undefined => .undefined
  | .null => .null
  | .bool b => .bool b
  | .num n => .num n
  | .str s => .str s
/-- The elements of an array without their `timestamp` fields. -/
def Value.withoutTimestampsList : List Value → List Value
  | [] => []
  | v :: vs => v.withoutTimestamps :: Value.withoutTimestampsList vs
/-- The fields of an object without those named `timestamp`. -/
def Value.withoutTimestampsFields : List (String × Value) → List (String × Value)
  | [] => []
  | (key, v) :: rest =>
    if key = "timestamp" then Value.withoutTimestampsFields rest
    else (key, v.withoutTimestamps) :: Value.withoutTimestampsFields rest
end

/-- A call of one method of `AndroidCoreBridge` with its arguments (`init` is
`initialize()`). -/
inductive BridgeCall where
  | init
  | checkPermissions
  | initDisplayInterface
  | initInputInterface
  | initAccessibilityInterface
  | captureScreen (options : Value) (now : Int)
  | getScreenInfo
  | simulateTouch (x y action : Value)
  | simulateGesture (startX startY endX endY duration : Value)
  | sendKeyEvent (keyCode action : Value)
  | sendText (text : Value)
  | swipe (startX startY endX endY steps : Value)
  | tap (x y : Value)
  | pressAndHold (x y duration : Value)
  | getCurrentFocus
  | traverseUI
  | findElement (criteria : Value)
  | performAction (elementId action : Value)
  | getStatus (timestamp : JSString)

/-- The calls that make up initialization: `initialize()` and the four methods it runs. -/
def BridgeCall.isInitStep : BridgeCall → Bool
  | .init => true
  | .checkPermissions => true
  | .initDisplayInterface => true
  | .initInputInterface => true
  | .initAccessibilityInterface => true
  | _ => false

/-- The outcome of one method call on the bridge and the bridge afterwards. -/
def AndroidCoreBridge.call (self : AndroidCoreBridge) :
    BridgeCall → Except JSError Value × AndroidCoreBridge
  | .init => AndroidCoreBridge.initialize self
  | .checkPermissions => (.ok .undefined, self.checkPermissions)
  | .initDisplayInterface => (.ok .undefined, self.initDisplayInterface)
  | .initInputInterface => (.ok .undefined, self.initInputInterface)
  | .initAccessibilityInterface => (.ok .undefined, self.initAccessibilityInterface)
  | .captureScreen options now => self.captureScreen options now
  | .getScreenInfo => self.getScreenInfo
  | .simulateTouch x y action => self.simulateTouch x y action
  | .simulateGesture startX startY endX endY duration =>
    self.simulateGesture startX startY endX endY duration
  | .sendKeyEvent keyCode action => self.sendKeyEvent keyCode action
  | .sendText text => self.sendText text
  | .swipe startX startY endX endY steps => self.swipe startX startY endX endY steps
  | .tap x y => self.tap x y
  | .pressAndHold x y duration => self.pressAndHold x y duration
  | .getCurrentFocus => self.getCurrentFocus
  | .traverseUI => self.traverseUI
  | .findElement criteria => self.findElement criteria
  | .performAction elementId action => self.performAction elementId action
  | .getStatus timestamp => (.ok (self.getStatus timestamp), self)

/-- The bridge after a sequence of method calls, each made whether or not the one before it
threw. -/
def AndroidCoreBridge.run (self : AndroidCoreBridge) : List BridgeCall → AndroidCoreBridge
  | [] => self
  | c :: rest => AndroidCoreBridge.run (self.call c).2 rest

/-- A call of one method of `OpenALawCore` with its arguments (`init` is `initialize()`). -/
inductive CoreCall where
  | init
  | loadConfig
  | processTask (task : JSString)
  | determineExecutionTarget (task : JSString)
  | executeLocally (task : JSString)
  | executeRemotely (task : JSString)
  | getStatus (timestamp : JSString)

/-- The outcome of one method call on the Core Agent and the Core Agent afterwards. -/
def OpenALawCore.call (lower : JSString → JSString) (self : OpenALawCore) :
    CoreCall → Except JSError Value × OpenALawCore
  | .init => OpenALawCore.initialize self
  | .loadConfig => (.ok .undefined, self.loadConfig)
  | .processTask task => self.processTask lower task
  | .determineExecutionTarget task =>
    (.ok (.str (OpenALawCore.determineExecutionTarget lower task)), self)
  | .executeLocally task => self.executeLocally task
  | .executeRemotely task => self.executeRemotely task
  | .getStatus timestamp => (.ok (self.getStatus timestamp), self)

/-- The Core Agent after a sequence of method calls. -/
def OpenALawCore.run (lower : JSString → JSString) (self : OpenALawCore) :
    List CoreCall → OpenALawCore
  | [] => self
  | c :: rest => OpenALawCore.run lower (self.call lower c).2 rest

/-- The outcome of `getStatus()` called on the Orchestrator and the Orchestrator afterwards. -/
def OpenALaw.callGetStatus (self : OpenALaw) (coreTime bridgeTime timestamp : JSString) :
    Except JSError Value × OpenALaw :=
  (.ok (self.getStatus coreTime bridgeTime timestamp), self)

/-! ## Facts about strings -/

theorem startsWith_iff (s k : JSString) : startsWith s k = true ↔ k <+: s := by
  induction s generalizing k with
  | nil =>
    cases k with
    | nil => simp [startsWith]
    | cons a ks => simp [startsWith]
  | cons c cs ih =>
    cases k with
    | nil => simp [startsWith]
    | cons a ks =>
      simp only [startsWith, Bool.and_eq_true, beq_iff_eq, ih, List.cons_prefix_cons]
      constructor
      · rintro ⟨h1, h2⟩; exact ⟨h1.symm, h2⟩
      · rintro ⟨h1, h2⟩; exact ⟨h1.symm, h2⟩

theorem includes_iff (s k : JSString) : includes s k = true ↔ k <:+: s := by
  induction s with
  | nil =>
    simp only [includes, startsWith_iff]
    simp [List.prefix_nil, List.infix_nil]
  | cons c cs ih =>
    simp only [includes, Bool.or_eq_true, startsWith_iff, ih]
    exact (List.infix_cons_iff).symm

theorem any_includes_iff (s : JSString) (ks : List JSString) :
    ks.any (fun keyword => includes s keyword) = true ↔ ∃ k ∈ ks, k <:+: s := by
  simp [List.any_eq_true, includes_iff]

theorem substring_zero (s : JSString) (n : Nat) : substring s 0 n = s.take n := by
  simp [substring]

theorem asciiToLowerCase_lowersAscii : LowersAscii asciiToLowerCase :=
  fun _ _ => rfl

theorem local_ne_remote : units "local" ≠ units "remote" := by decide

/-! ## The Core Agent: classification and formatting -/

theorem determineExecutionTarget_eq (lower : JSString → JSString) (t : JSString) :
    OpenALawCore.determineExecutionTarget lower t =
      if ∃ k ∈ OpenALawCore.codeKeywords, k <:+: lower t then units "local"
      else if ∃ k ∈ OpenALawCore.complexKeywords, k <:+: lower t then units "remote"
      else units "local" := by
  simp only [OpenALawCore.determineExecutionTarget, any_includes_iff]

theorem determineExecutionTarget_local_or_remote (lower : JSString → JSString) (t : JSString) :
    OpenALawCore.determineExecutionTarget lower t = units "local" ∨
      OpenALawCore.determineExecutionTarget lower t = units "remote" := by
  rw [determineExecutionTarget_eq]
  split_ifs <;> simp

/-- C1: `determineExecutionTarget(t)` is `'remote'` exactly when the lower-cased task holds no
code keyword and at least one analysis keyword as a substring; in every other case it is
`'local'`: whenever a code keyword occurs (with or without analysis keywords), whenever no
keyword of either list occurs, and so for a task whose lower-cased form is empty. -/
theorem determineExecutionTarget_remote_iff (lower : JSString → JSString) (t : JSString) :
    (OpenALawCore.determineExecutionTarget lower t = units "remote" ↔
      (∀ k ∈ ["code", "programming", "python", "javascript", "function", "algorithm",
                "debug"].map units, ¬ k <:+: lower t) ∧
      (∃ k ∈ ["analyze", "think", "summarize", "creative", "complex"].map units,
        k <:+: lower t)) ∧
    (OpenALawCore.determineExecutionTarget lower t ≠ units "remote" →
      OpenALawCore.determineExecutionTarget lower t = units "local") ∧
    ((∃ k ∈ ["code", "programming", "python", "javascript", "function", "algorithm",
                "debug"].map units, k <:+: lower t) →
      OpenALawCore.determineExecutionTarget lower t = units "local") ∧
    ((∀ k ∈ ["analyze", "think", "summarize", "creative", "complex"].map units,
        ¬ k <:+: lower t) →
      OpenALawCore.determineExecutionTarget lower t = units "local") ∧
    (lower t = [] → OpenALawCore.determineExecutionTarget lower t = units "local") := by
  have hc : OpenALawCore.codeKeywords =
      ["code", "programming", "python", "javascript", "function", "algorithm",
        "debug"].map units := rfl
  have ha : OpenALawCore.complexKeywords =
      ["analyze", "think", "summarize", "creative", "complex"].map units := rfl
  have heq := determineExecutionTarget_eq lower t
  rw [hc, ha] at heq
  have hne := local_ne_remote
  refine ⟨?_, ?_, ?_, ?_, ?_⟩
  · rw [heq]
    constructor
    · intro h
      split_ifs at h with h1 h2
      · exact absurd h hne
      · exact ⟨fun k hk hin => h1 ⟨k, hk, hin⟩, h2⟩
      · exact absurd h hne
    · rintro ⟨h1, h2⟩
      rw [if_neg (fun ⟨k, hk, hin⟩ => h1 k hk hin), if_pos h2]
  · intro h
    rcases determineExecutionTarget_local_or_remote lower t with h1 | h1
    · exact h1
    · exact absurd h1 h
  · intro h
    rw [heq, if_pos h]
  · intro h
    rw [heq]
    split_ifs with h1 h2
    · rfl
    · obtain ⟨k, hk, hin⟩ := h2
      exact absurd hin (h k hk)
    · rfl
  · intro h
    rw [heq, h]
    decide

/-- C2: the Core Agent's `processTask(t)` returns `'[LOCAL] Processed: '`, the first 50
units of `t` and `'...'` when the target is `'local'`, the same with `'[REMOTE] Processed: '`
when it is `'remote'`; one of the two always applies, the instance is left as it was, and a
task of at most 50 units appears whole, still followed by `'...'`. -/
theorem core_processTask_format (lower : JSString → JSString) (self : OpenALawCore)
    (t : JSString) :
    (OpenALawCore.determineExecutionTarget lower t = units "local" →
      self.processTask lower t =
        (.ok (.str (units "[LOCAL] Processed: " ++ t.take 50 ++ units "...")), self)) ∧
    (OpenALawCore.determineExecutionTarget lower t = units "remote" →
      self.processTask lower t =
        (.ok (.str (units "[REMOTE] Processed: " ++ t.take 50 ++ units "...")), self)) ∧
    (OpenALawCore.determineExecutionTarget lower t = units "local" ∨
      OpenALawCore.determineExecutionTarget lower t = units "remote") ∧
    (t.length ≤ 50 →
      self.processTask lower t =
        (.ok (.str ((if OpenALawCore.determineExecutionTarget lower t = units "local"
          then units "[LOCAL] Processed: " else units "[REMOTE] Processed: ")
          ++ t ++ units "...")), self)) := by
  refine ⟨?_, ?_, determineExecutionTarget_local_or_remote lower t, ?_⟩
  · intro h
    simp only [OpenALawCore.processTask, h, if_true, OpenALawCore.executeLocally,
      substring_zero]
  · intro h
    have hne : ¬ units "remote" = units "local" := fun e => local_ne_remote e.symm
    simp only [OpenALawCore.processTask, h, if_neg hne, OpenALawCore.executeRemotely,
      substring_zero]
  · intro hlen
    simp only [OpenALawCore.processTask]
    split_ifs with h
    · simp only [OpenALawCore.executeLocally, substring_zero, List.take_of_length_le hlen]
    · simp only [OpenALawCore.executeRemotely, substring_zero, List.take_of_length_le hlen]

/-! ## The Orchestrator: system-interaction detection -/

/-- C3: `requiresSystemInteraction(t)` is true exactly when the lower-cased task holds one of
the 17 system keywords as a substring; under any lower-casing that is right on ASCII text it is
true for `'please tap the button'` and false for `'summarize this text'`. -/
theorem requiresSystemInteraction_iff (lower : JSString → JSString) (t : JSString) :
    (OpenALaw.requiresSystemInteraction lower t = true ↔
      ∃ k ∈ ["screen", "touch", "click", "swipe", "tap", "gesture", "app", "application",
              "interface", "ui", "view", "input", "keyboard", "navigation", "activity",
              "window", "notification"].map units, k <:+: lower t) ∧
    OpenALaw.systemKeywords.length = 17 ∧
    (∀ lw : JSString → JSString, LowersAscii lw →
      OpenALaw.requiresSystemInteraction lw (units "please tap the button") = true ∧
      OpenALaw.requiresSystemInteraction lw (units "summarize this text") = false) ∧
    OpenALaw.requiresSystemInteraction asciiToLowerCase (units "please tap the button") = true ∧
    OpenALaw.requiresSystemInteraction asciiToLowerCase (units "summarize this text") = false := by
  refine ⟨?_, by decide, ?_, by decide, by decide⟩
  · simp only [OpenALaw.requiresSystemInteraction, any_includes_iff]
    rfl
  · intro lw hl
    have h1 := hl (units "please tap the button") (by decide)
    have h2 := hl (units "summarize this text") (by decide)
    simp only [OpenALaw.requiresSystemInteraction, h1, h2]
    constructor <;> decide

/-! ## The coordinate pattern -/

theorem greedyMore_eq_none_iff {α : Type} (p : Nat → Bool)
    (k : JSString → JSString → Option α) (taken s : JSString) :
    greedyMore p k taken s = none ↔
      ∀ a r, s = a ++ r → (∀ c ∈ a, p c = true) → k (taken ++ a) r = none := by
  induction s generalizing taken with
  | nil =>
    simp only [greedyMore]
    constructor
    · intro h a r har _
      have hnil : a = [] ∧ r = [] := by simpa using har.symm
      obtain ⟨rfl, rfl⟩ := hnil
      simpa using h
    · intro h
      simpa using h [] [] rfl (by simp)
  | cons c cs ih =>
    by_cases hp : p c = true
    · simp only [greedyMore, hp, if_true]
      constructor
      · intro h a r har hall
        have h1 : greedyMore p k (taken ++ [c]) cs = none := by
          cases hg : greedyMore p k (taken ++ [c]) cs with
          | none => rfl
          | some v => rw [hg] at h; simp at h
        have h2 : k taken (c :: cs) = none := by rw [h1] at h; exact h
        cases a with
        | nil =>
          simp only [List.nil_append] at har
          subst har
          simpa using h2
        | cons a0 as =>
          simp only [List.cons_append, List.cons.injEq] at har
          obtain ⟨rfl, rfl⟩ := har
          have h3 := (ih (taken ++ [c])).1 h1 as r rfl
            (fun x hx => hall x (List.mem_cons_of_mem _ hx))
          simpa using h3
      · intro h
        have h1 : greedyMore p k (taken ++ [c]) cs = none := by
          refine (ih _).2 (fun a r har hall => ?_)
          have h3 := h (c :: a) r (by simp [har]) (by
            intro x hx
            rcases List.mem_cons.1 hx with rfl | hx
            · exact hp
            · exact hall x hx)
          simpa using h3
        rw [h1]
        simpa using h [] (c :: cs) rfl (by simp)
    · simp only [greedyMore, hp]
      constructor
      · intro h a r har hall
        cases a with
        | nil =>
          simp only [List.nil_append] at har
          subst har
          simpa using h
        | cons a0 as =>
          simp only [List.cons_append, List.cons.injEq] at har
          obtain ⟨rfl, rfl⟩ := har
          exact absurd (hall c (List.mem_cons_self _ _)) hp
      · intro h
        simpa using h [] (c :: cs) rfl (by simp)

theorem greedyPlus_eq_none_iff {α : Type} (p : Nat → Bool)
    (k : JSString → JSString → Option α) (s : JSString) :
    greedyPlus p k s = none ↔
      ∀ a r, s = a ++ r → a ≠ [] → (∀ c ∈ a, p c = true) → k a r = none := by
  cases s with
  | nil =>
    simp only [greedyPlus, true_iff]
    intro a r har hne
    have hnil : a = [] ∧ r = [] := by simpa using har.symm
    exact absurd hnil.1 hne
  | cons c cs =>
    by_cases hp : p c = true
    · simp only [greedyPlus, hp, if_true, greedyMore_eq_none_iff]
      constructor
      · intro h a r har hne hall
        cases a with
        | nil => exact absurd rfl hne
        | cons a0 as =>
          simp only [List.cons_append, List.cons.injEq] at har
          obtain ⟨rfl, rfl⟩ := har
          have h3 := h as r rfl (fun x hx => hall x (List.mem_cons_of_mem _ hx))
          simpa using h3
      · intro h a r har hall
        have h3 := h (c :: a) r (by simp [har]) (by simp) (by
          intro x hx
          rcases List.mem_cons.1 hx with rfl | hx
          · exact hp
          · exact hall x hx)
        simpa using h3
    · simp only [greedyPlus, hp, Bool.false_eq_true, if_false, true_iff]
      intro a r har hne hall
      cases a with
      | nil => exact absurd rfl hne
      | cons a0 as =>
        simp only [List.cons_append, List.cons.injEq] at har
        obtain ⟨rfl, rfl⟩ := har
        exact absurd (hall c (List.mem_cons_self _ _)) hp

theorem coordRegexAt_eq_none_iff (s : JSString) :
    coordRegexAt s = none ↔
      ∀ a m b post : JSString, s = a ++ (m ++ (b ++ post)) →
        a ≠ [] → (∀ c ∈ a, isDigit c = true) →
        m ≠ [] → (∀ c ∈ m, isNonDigit c = true) →
        b ≠ [] → (∀ c ∈ b, isDigit c = true) → False := by
  simp only [coordRegexAt, greedyPlus_eq_none_iff]
  constructor
  · intro h a m b post hs ha hda hm hdm hb hdb
    have h3 := h a (m ++ (b ++ post)) hs ha hda m (b ++ post) rfl hm hdm b post rfl hb hdb
    simp at h3
  · intro h a r hs ha hda m r2 hr hm hdm b post hr2 hb hdb
    exact absurd (h a m b post (by rw [hs, hr, hr2]) ha hda hm hdm hb hdb) id

theorem coordRegexSearch_eq_none_iff (t : JSString) :
    coordRegexSearch t = none ↔ ∀ pre s : JSString, t = pre ++ s → coordRegexAt s = none := by
  induction t with
  | nil =>
    simp only [coordRegexSearch, true_iff]
    intro pre s hs
    have hnil : pre = [] ∧ s = [] := by simpa using hs.symm
    rw [hnil.2]
    rfl
  | cons c cs ih =>
    simp only [coordRegexSearch]
    constructor
    · intro h pre s hs
      have h1 : coordRegexAt (c :: cs) = none := by
        cases hg : coordRegexAt (c :: cs) with
        | none => rfl
        | some v => rw [hg] at h; simp at h
      have h2 : coordRegexSearch cs = none := by rw [h1] at h; exact h
      cases pre with
      | nil =>
        simp only [List.nil_append] at hs
        rw [← hs]
        exact h1
      | cons p0 ps =>
        simp only [List.cons_append, List.cons.injEq] at hs
        exact ih.1 h2 ps s hs.2
    · intro h
      have h1 : coordRegexAt (c :: cs) = none := h [] (c :: cs) rfl
      have h2 : coordRegexSearch cs = none :=
        ih.2 (fun pre s hs => h (c :: pre) s (by simp [hs]))
      rw [h1]
      exact h2

theorem coordRegexSearch_eq_none_iff_not_pattern (t : JSString) :
    coordRegexSearch t = none ↔ ¬ HasCoordPattern t := by
  rw [coordRegexSearch_eq_none_iff]
  constructor
  · rintro h ⟨pre, a, m, b, post, ht, ha, hda, hm, hdm, hb, hdb⟩
    exact (coordRegexAt_eq_none_iff _).1 (h pre _ ht) a m b post rfl ha hda hm hdm hb hdb
  · intro h pre s hs
    rw [coordRegexAt_eq_none_iff]
    intro a m b post hs2 ha hda hm hdm hb hdb
    exact h ⟨pre, a, m, b, post, by rw [hs, hs2], ha, hda, hm, hdm, hb, hdb⟩

theorem greedyMore_eq {α : Type} (p : Nat → Bool) (k : JSString → JSString → Option α)
    (hk : (∀ a c cs, p c = true → k a (c :: cs) = none) ∨ (∀ a r, (k a r).isSome = true))
    (taken s : JSString) :
    greedyMore p k taken s = k (taken ++ s.takeWhile p) (s.dropWhile p) := by
  induction s generalizing taken with
  | nil => simp [greedyMore]
  | cons c cs ih =>
    by_cases hp : p c = true
    · simp only [greedyMore, hp, if_true, List.takeWhile_cons_of_pos hp,
        List.dropWhile_cons_of_pos hp, ih]
      have hassoc : taken ++ [c] ++ List.takeWhile p cs = taken ++ c :: List.takeWhile p cs := by
        simp
      rw [hassoc]
      rcases hk with hk | hk
      · rw [hk taken c cs hp]
        cases k (taken ++ c :: List.takeWhile p cs) (List.dropWhile p cs) <;> rfl
      · have hs := hk (taken ++ c :: List.takeWhile p cs) (List.dropWhile p cs)
        cases hv : k (taken ++ c :: List.takeWhile p cs) (List.dropWhile p cs) with
        | none => rw [hv] at hs; simp at hs
        | some v => rfl
    · simp only [greedyMore, hp, List.takeWhile_cons_of_neg hp, List.dropWhile_cons_of_neg hp]
      simp

theorem greedyPlus_eq {α : Type} (p : Nat → Bool) (k : JSString → JSString → Option α)
    (hk : (∀ a c cs, p c = true → k a (c :: cs) = none) ∨ (∀ a r, (k a r).isSome = true))
    (s : JSString) :
    greedyPlus p k s =
      if s.takeWhile p = [] then none else k (s.takeWhile p) (s.dropWhile p) := by
  cases s with
  | nil => simp [greedyPlus]
  | cons c cs =>
    by_cases hp : p c = true
    · simp only [greedyPlus, hp, if_true, greedyMore_eq p k hk, List.takeWhile_cons_of_pos hp,
        List.dropWhile_cons_of_pos hp]
      simp
    · simp only [greedyPlus, hp, List.takeWhile_cons_of_neg hp]
      simp

theorem greedyPlus_head_fails {α : Type} (p : Nat → Bool)
    (k : JSString → JSString → Option α) (c : Nat) (cs : JSString) (hp : p c = false) :
    greedyPlus p k (c :: cs) = none := by
  simp [greedyPlus, hp]

theorem coordRegexAt_eq_runsAt (s : JSString) : coordRegexAt s = runsAt s := by
  have hinner : ∀ x sep r2 : JSString,
      greedyPlus isDigit (fun y r3 => some (CoordMatch.mk x sep y r3)) r2
        = if r2.takeWhile isDigit = [] then none
          else some (CoordMatch.mk x sep (r2.takeWhile isDigit) (r2.dropWhile isDigit)) :=
    fun x sep r2 =>
      greedyPlus_eq isDigit (fun y r3 => some (CoordMatch.mk x sep y r3))
        (Or.inr (fun _ _ => rfl)) r2
  have hmid : ∀ x r1 : JSString,
      greedyPlus isNonDigit (fun sep r2 =>
        greedyPlus isDigit (fun y r3 => some (CoordMatch.mk x sep y r3)) r2) r1
        = if r1.takeWhile isNonDigit = [] then none
          else greedyPlus isDigit
            (fun y r3 => some (CoordMatch.mk x (r1.takeWhile isNonDigit) y r3))
            (r1.dropWhile isNonDigit) :=
    fun x r1 =>
      greedyPlus_eq isNonDigit (fun sep r2 =>
        greedyPlus isDigit (fun y r3 => some (CoordMatch.mk x sep y r3)) r2)
        (Or.inl (fun _ c cs hc => greedyPlus_head_fails isDigit _ c cs (by
          simpa [isNonDigit] using hc))) r1
  have houter := greedyPlus_eq isDigit (fun x r1 =>
      greedyPlus isNonDigit (fun sep r2 =>
        greedyPlus isDigit (fun y r3 => some (CoordMatch.mk x sep y r3)) r2) r1)
      (Or.inl (fun _ c cs hc => greedyPlus_head_fails isNonDigit _ c cs (by
        simp [isNonDigit, hc]))) s
  unfold coordRegexAt
  rw [houter, hmid, hinner]
  simp only [runsAt]
  by_cases h1 : List.takeWhile isDigit s = []
  · simp [h1]
  · by_cases h2 : List.takeWhile isNonDigit (List.dropWhile isDigit s) = []
    · simp [h1, h2]
    · by_cases h3 : List.takeWhile isDigit
          (List.dropWhile isNonDigit (List.dropWhile isDigit s)) = []
      · simp [h1, h2, h3]
      · simp [h1, h2, h3]

theorem dropWhile_head_false (p : Nat → Bool) (l : JSString) (c : Nat) (cs : JSString)
    (h : l.dropWhile p = c :: cs) : p c = false := by
  induction l with
  | nil => simp at h
  | cons a l ih =>
    by_cases hp : p a = true
    · rw [List.dropWhile_cons_of_pos hp] at h
      exact ih h
    · rw [List.dropWhile_cons_of_neg hp] at h
      simp only [List.cons.injEq] at h
      rw [← h.1]
      simpa using hp

theorem runsAt_tail_none (c : Nat) (cs : JSString) (hc : isDigit c = true)
    (h : runsAt (c :: cs) = none) : runsAt (cs.dropWhile isNonDigit) = none := by
  cases cs with
  | nil => simp [runsAt]
  | cons d ds =>
    by_cases hd : isDigit d = true
    · have hnd : ¬ isNonDigit d = true := by simp [isNonDigit, hd]
      rw [List.dropWhile_cons_of_neg hnd]
      simp only [runsAt, List.takeWhile_cons_of_pos hc, List.dropWhile_cons_of_pos hc,
        List.takeWhile_cons_of_pos hd, List.dropWhile_cons_of_pos hd] at h ⊢
      simpa using h
    · have hnd : isNonDigit d = true := by simpa [isNonDigit] using hd
      rw [List.dropWhile_cons_of_pos hnd]
      simp only [runsAt, List.takeWhile_cons_of_pos hc, List.dropWhile_cons_of_pos hc,
        List.dropWhile_cons_of_neg hd, List.takeWhile_cons_of_pos hnd,
        List.dropWhile_cons_of_pos hnd] at h
      have hy : List.takeWhile isDigit (List.dropWhile isNonDigit ds) = [] := by
        simpa using h
      simp [runsAt, hy]

theorem coordRegexSearch_eq_runsAt (t : JSString) :
    coordRegexSearch t = runsAt (t.dropWhile isNonDigit) := by
  induction t with
  | nil => simp [coordRegexSearch, runsAt]
  | cons c cs ih =>
    simp only [coordRegexSearch, coordRegexAt_eq_runsAt]
    by_cases hc : isDigit c = true
    · have hnd : ¬ isNonDigit c = true := by simp [isNonDigit, hc]
      rw [List.dropWhile_cons_of_neg hnd]
      cases h : runsAt (c :: cs) with
      | none =>
        simp only []
        rw [ih]
        exact runsAt_tail_none c cs hc h
      | some m => rfl
    · have hnd : isNonDigit c = true := by simpa [isNonDigit] using hc
      have hnone : runsAt (c :: cs) = none := by
        simp [runsAt, List.takeWhile_cons_of_neg hc]
      rw [List.dropWhile_cons_of_pos hnd, hnone]
      exact ih

theorem digitRuns_nil : digitRuns [] = [] := by
  simp [digitRuns]

theorem digitRuns_cons_nonDigit (c : Nat) (cs : JSString) (hc : isNonDigit c = true) :
    digitRuns (c :: cs) = digitRuns cs := by
  simp [digitRuns, List.splitOnP_cons, hc]

theorem digitRuns_dropWhile (t : JSString) :
    digitRuns (t.dropWhile isNonDigit) = digitRuns t := by
  induction t with
  | nil => rfl
  | cons c cs ih =>
    by_cases hc : isNonDigit c = true
    · rw [List.dropWhile_cons_of_pos hc, ih, digitRuns_cons_nonDigit c cs hc]
    · rw [List.dropWhile_cons_of_neg hc]

theorem digitRuns_digits_append (d r : JSString) (hd : ∀ c ∈ d, isDigit c = true)
    (hne : d ≠ []) (hr : ∀ c cs, r = c :: cs → isNonDigit c = true) :
    digitRuns (d ++ r) = d :: digitRuns r := by
  have hd2 : ∀ c ∈ d, ¬ isNonDigit c = true := by
    intro c hc
    simp [isNonDigit, hd c hc]
  cases r with
  | nil =>
    rw [List.append_nil, digitRuns, List.splitOnP_eq_single isNonDigit d hd2, digitRuns_nil]
    simp [hne]
  | cons e es =>
    have he : isNonDigit e = true := hr e es rfl
    rw [digitRuns, List.splitOnP_first isNonDigit d hd2 e he es, digitRuns,
      List.splitOnP_cons]
    simp [hne, he]

theorem digitRuns_step (t : JSString) :
    digitRuns t =
      if (t.dropWhile isNonDigit).takeWhile isDigit = [] then []
      else (t.dropWhile isNonDigit).takeWhile isDigit ::
        digitRuns ((t.dropWhile isNonDigit).dropWhile isDigit) := by
  rw [← digitRuns_dropWhile t]
  cases hs : t.dropWhile isNonDigit with
  | nil => simp [digitRuns_nil]
  | cons c cs =>
    have hc : isDigit c = true := by
      have h := dropWhile_head_false isNonDigit t c cs hs
      simpa [isNonDigit] using h
    have hx : List.takeWhile isDigit (c :: cs) ≠ [] := by
      simp [List.takeWhile_cons_of_pos hc]
    rw [if_neg hx]
    conv_lhs => rw [← List.takeWhile_append_dropWhile isDigit (c :: cs)]
    refine digitRuns_digits_append _ _ ?_ hx ?_
    · intro a ha
      exact (List.mem_takeWhile_imp ha)
    · intro a as ha
      have h := dropWhile_head_false isDigit (c :: cs) a as ha
      simp [isNonDigit, h]

theorem separator_nonempty (s : JSString)
    (h : List.takeWhile isNonDigit (List.dropWhile isDigit s) = []) :
    List.dropWhile isDigit s = [] := by
  cases hr : List.dropWhile isDigit s with
  | nil => rfl
  | cons c cs =>
    have hc : isNonDigit c = true := by
      simp [isNonDigit, dropWhile_head_false isDigit s c cs hr]
    rw [hr, List.takeWhile_cons_of_pos hc] at h
    simp at h

theorem runsAt_eq (s : JSString) :
    runsAt s =
      if s.takeWhile isDigit = [] ∨
          ((s.dropWhile isDigit).dropWhile isNonDigit).takeWhile isDigit = [] then none
      else some
        { x := s.takeWhile isDigit
          sep := (s.dropWhile isDigit).takeWhile isNonDigit
          y := ((s.dropWhile isDigit).dropWhile isNonDigit).takeWhile isDigit
          rest := ((s.dropWhile isDigit).dropWhile isNonDigit).dropWhile isDigit } := by
  simp only [runsAt]
  by_cases h1 : List.takeWhile isDigit s = []
  · simp [h1]
  · by_cases h3 : List.takeWhile isDigit
        (List.dropWhile isNonDigit (List.dropWhile isDigit s)) = []
    · simp [h1, h3]
    · have h2 : List.takeWhile isNonDigit (List.dropWhile isDigit s) ≠ [] := by
        intro h
        apply h3
        rw [separator_nonempty s h]
        rfl
      simp [h1, h2, h3]

theorem coordRegexSearch_none_iff_runs (t : JSString) :
    coordRegexSearch t = none ↔ (digitRuns t).length < 2 := by
  rw [coordRegexSearch_eq_runsAt, runsAt_eq, digitRuns_step t,
    digitRuns_step (List.dropWhile isDigit (List.dropWhile isNonDigit t))]
  by_cases h1 : List.takeWhile isDigit (List.dropWhile isNonDigit t) = []
  · simp [h1]
  · by_cases h3 : List.takeWhile isDigit
        (List.dropWhile isNonDigit (List.dropWhile isDigit (List.dropWhile isNonDigit t))) = []
    · simp [h1, h3]
    · simp [h1, h3]

theorem coordRegexSearch_of_runs (t r1 r2 : JSString) (rest : List JSString)
    (h : digitRuns t = r1 :: r2 :: rest) :
    ∃ m, coordRegexSearch t = some m ∧ m.x = r1 ∧ m.y = r2 := by
  rw [coordRegexSearch_eq_runsAt, runsAt_eq]
  rw [digitRuns_step t,
    digitRuns_step (List.dropWhile isDigit (List.dropWhile isNonDigit t))] at h
  by_cases h1 : List.takeWhile isDigit (List.dropWhile isNonDigit t) = []
  · simp [h1] at h
  · by_cases h3 : List.takeWhile isDigit
        (List.dropWhile isNonDigit (List.dropWhile isDigit (List.dropWhile isNonDigit t))) = []
    · simp [h1, h3] at h
    · simp only [h1, h3, if_false, List.cons.injEq] at h
      rw [if_neg (by simp [h1, h3])]
      exact ⟨_, rfl, h.1, h.2.1⟩

theorem matchAll_head (t : JSString) :
    matchAll t =
      match coordRegexSearch t with
      | none => []
      | some m => (m.x ++ m.sep ++ m.y, m.x, m.y) :: matchAllFuel (t.length - 1) m.rest := by
  cases t with
  | nil => simp [matchAll, matchAllFuel, coordRegexSearch]
  | cons c cs => simp [matchAll, matchAllFuel]

theorem extractCoordinates_eq (t : JSString) :
    OpenALaw.extractCoordinates t =
      match coordRegexSearch t with
      | none => .null
      | some m => .obj [("x", .num (parseInt m.x)), ("y", .num (parseInt m.y))] := by
  rw [OpenALaw.extractCoordinates, matchAll_head]
  cases coordRegexSearch t <;> rfl

theorem parseInt_foldl (s : JSString) (acc : Nat) :
    s.foldl (fun value c => 10 * value + (c - 48)) acc =
      acc * 10 ^ s.length + decimalValue s := by
  induction s generalizing acc with
  | nil => simp [decimalValue]
  | cons c cs ih =>
    rw [List.foldl_cons, ih]
    simp only [decimalValue, List.reverse_cons, List.map_append, List.map_cons, List.map_nil,
      Nat.ofDigits_append, Nat.ofDigits_singleton, List.length_map, List.length_reverse,
      List.length_cons]
    ring

theorem parseInt_eq_decimalValue (s : JSString) : parseInt s = decimalValue s := by
  rw [parseInt, parseInt_foldl]
  simp

/-- C4: `extractCoordinates(t)` is `null` exactly when `t` has no occurrence of digits,
non-digits, digits, which is exactly when `t` has fewer than two maximal digit runs; otherwise
it is `{x, y}` with the base-ten values of the first and of the second maximal digit run.
The three examples evaluate as stated.  (Numbers are exact integers in the model.) -/
theorem extractCoordinates_spec (t : JSString) :
    (OpenALaw.extractCoordinates t = .null ↔ ¬ HasCoordPattern t) ∧
    (OpenALaw.extractCoordinates t = .null ↔ (digitRuns t).length < 2) ∧
    (∀ (r1 r2 : JSString) (rest : List JSString), digitRuns t = r1 :: r2 :: rest →
      OpenALaw.extractCoordinates t =
        .obj [("x", .num (decimalValue r1)), ("y", .num (decimalValue r2))]) ∧
    OpenALaw.extractCoordinates (units "tap 10 and 20") =
      .obj [("x", .num 10), ("y", .num 20)] ∧
    OpenALaw.extractCoordinates (units "no numbers here") = .null ∧
    OpenALaw.extractCoordinates (units "2024 to 10") =
      .obj [("x", .num 2024), ("y", .num 10)] := by
  have hnull : OpenALaw.extractCoordinates t = .null ↔ coordRegexSearch t = none := by
    rw [extractCoordinates_eq]
    cases coordRegexSearch t <;> simp
  refine ⟨?_, ?_, ?_, by rfl, by rfl, by rfl⟩
  · rw [hnull, coordRegexSearch_eq_none_iff_not_pattern]
  · rw [hnull, coordRegexSearch_none_iff_runs]
  · intro r1 r2 rest h
    obtain ⟨m, hm, hx, hy⟩ := coordRegexSearch_of_runs t r1 r2 rest h
    rw [extractCoordinates_eq, hm]
    simp only [hx, hy, parseInt_eq_decimalValue]

theorem coordRegexSearch_rest_lt (s : JSString) (m : CoordMatch)
    (h : coordRegexSearch s = some m) : m.rest.length < s.length := by
  rw [coordRegexSearch_eq_runsAt, runsAt_eq] at h
  split_ifs at h with hc
  simp only [Option.some.injEq] at h
  rw [← h]
  simp only [not_or] at hc
  have h1 : (List.dropWhile isDigit (List.dropWhile isNonDigit s)).length <
      (List.dropWhile isNonDigit s).length := by
    have hsum := congrArg List.length
      (List.takeWhile_append_dropWhile isDigit (List.dropWhile isNonDigit s))
    rw [List.length_append] at hsum
    have hpos : 0 < (List.takeWhile isDigit (List.dropWhile isNonDigit s)).length :=
      List.length_pos.2 hc.1
    omega
  have h2 := (List.dropWhile_sublist (l := s) isNonDigit).length_le
  have h3 := (List.dropWhile_sublist
    (l := List.dropWhile isDigit (List.dropWhile isNonDigit s)) isNonDigit).length_le
  have h4 := (List.dropWhile_sublist
    (l := List.dropWhile isNonDigit (List.dropWhile isDigit (List.dropWhile isNonDigit s)))
    isDigit).length_le
  show (List.dropWhile isDigit (List.dropWhile isNonDigit
    (List.dropWhile isDigit (List.dropWhile isNonDigit s)))).length < s.length
  omega

theorem matchAllFuel_enough (n m : Nat) (s : JSString) (hn : s.length ≤ n)
    (hm : s.length ≤ m) : matchAllFuel n s = matchAllFuel m s := by
  induction n generalizing m s with
  | zero =>
    have hs : s = [] := List.length_eq_zero.1 (Nat.le_zero.1 hn)
    subst hs
    cases m <;> simp [matchAllFuel, coordRegexSearch]
  | succ n ih =>
    cases m with
    | zero =>
      have hs : s = [] := List.length_eq_zero.1 (Nat.le_zero.1 hm)
      subst hs
      simp [matchAllFuel, coordRegexSearch]
    | succ m =>
      simp only [matchAllFuel]
      cases hsearch : coordRegexSearch s with
      | none => rfl
      | some r =>
        have hlt := coordRegexSearch_rest_lt s r hsearch
        simp only []
        rw [ih m r.rest (by omega) (by omega)]

/-! ## The bridge -/

theorem joinThrows_iff (xs : List Value) :
    Value.joinThrows xs = true ↔ ∃ v ∈ xs, v.toStringThrows = true := by
  induction xs with
  | nil => simp [Value.joinThrows]
  | cons v vs ih => simp [Value.joinThrows, ih]

theorem simulateTouch_eq (b : AndroidCoreBridge) (x y action : Value) :
    b.simulateTouch x y action =
      (if b.initialized = false then .error AndroidCoreBridge.notInitialized
       else if [action.orDefault (.str (units "tap")), x, y].any Value.toStringThrows = true
       then .error .typeError
       else .ok (.obj [("success", .bool true),
                  ("action", action.orDefault (.str (units "tap"))),
                  ("coordinates", .obj [("x", x), ("y", y)])]), b) := by
  simp only [AndroidCoreBridge.simulateTouch, templateLiteral]
  cases b.initialized
  · simp
  · by_cases h : [action.orDefault (.str (units "tap")), x, y].any Value.toStringThrows = true
    · simp only [h, if_true]
      simp
    · simp only [h, if_false]
      simp

theorem simulateGesture_eq (b : AndroidCoreBridge) (startX startY endX endY duration : Value) :
    b.simulateGesture startX startY endX endY duration =
      (if b.initialized = false then .error AndroidCoreBridge.notInitialized
       else if [startX, startY, endX, endY, duration.orDefault (.num 100)].any
           Value.toStringThrows = true
       then .error .typeError
       else .ok (.obj [("success", .bool true), ("gesture", .str (units "swipe")),
                  ("start", .obj [("x", startX), ("y", startY)]),
                  ("end", .obj [("x", endX), ("y", endY)]),
                  ("duration", duration.orDefault (.num 100))]), b) := by
  simp only [AndroidCoreBridge.simulateGesture, templateLiteral]
  cases b.initialized
  · simp
  · by_cases h : [startX, startY, endX, endY, duration.orDefault (.num 100)].any
        Value.toStringThrows = true
    · simp only [h, if_true]
      simp
    · simp only [h, if_false]
      simp

theorem sendKeyEvent_eq (b : AndroidCoreBridge) (keyCode action : Value) :
    b.sendKeyEvent keyCode action =
      (if b.initialized = false then .error AndroidCoreBridge.notInitialized
       else if [keyCode, action.orDefault (.str (units "press"))].any Value.toStringThrows
           = true
       then .error .typeError
       else .ok (.obj [("success", .bool true), ("keyCode", keyCode),
                  ("action", action.orDefault (.str (units "press")))]), b) := by
  simp only [AndroidCoreBridge.sendKeyEvent, templateLiteral]
  cases b.initialized
  · simp
  · by_cases h : [keyCode, action.orDefault (.str (units "press"))].any Value.toStringThrows
        = true
    · simp only [h, if_true]
      simp
    · simp only [h, if_false]
      simp

theorem sendText_eq (b : AndroidCoreBridge) (text : Value) :
    b.sendText text =
      (if b.initialized = false then .error AndroidCoreBridge.notInitialized
       else if text.toStringThrows = true then .error .typeError
       else match text.get "length" with
         | .error e => .error e
         | .ok length =>
           .ok (.obj [("success", .bool true), ("text", text), ("length", length)]),
       b) := by
  simp only [AndroidCoreBridge.sendText, templateLiteral]
  cases b.initialized
  · simp
  · by_cases h : text.toStringThrows = true
    · simp [h]
    · simp only [List.any_cons, List.any_nil, Bool.or_false, h, if_false]
      cases text.get "length" <;> simp

theorem pressAndHold_eq (b : AndroidCoreBridge) (x y duration : Value) :
    b.pressAndHold x y duration =
      (if b.initialized = false then .error AndroidCoreBridge.notInitialized
       else if [x, y, duration.orDefault (.num 1000)].any Value.toStringThrows = true
       then .error .typeError
       else .ok (.obj [("success", .bool true), ("action", .str (units "pressAndHold")),
                  ("coordinates", .obj [("x", x), ("y", y)]),
                  ("duration", duration.orDefault (.num 1000))]), b) := by
  simp only [AndroidCoreBridge.pressAndHold, templateLiteral]
  cases b.initialized
  · simp
  · by_cases h : [x, y, duration.orDefault (.num 1000)].any Value.toStringThrows = true
    · simp only [h, if_true]
      simp
    · simp only [h, if_false]
      simp

theorem performAction_eq (b : AndroidCoreBridge) (elementId action : Value) :
    b.performAction elementId action =
      (if b.initialized = false then .error AndroidCoreBridge.notInitialized
       else if [action, elementId].any Value.toStringThrows = true then .error .typeError
       else .ok (.obj [("success", .bool true), ("elementId", elementId),
                  ("action", action)]), b) := by
  simp only [AndroidCoreBridge.performAction, templateLiteral]
  cases b.initialized
  · simp
  · by_cases h : [action, elementId].any Value.toStringThrows = true
    · simp only [h, if_true]
      simp
    · simp only [h, if_false]
      simp

theorem ready_initialized : AndroidCoreBridge.ready.initialized = true := rfl

/-- C6: on a bridge whose `initialized` flag is still false, each of `captureScreen`,
`simulateTouch`, `simulateGesture`, `sendKeyEvent`, `sendText`, `getCurrentFocus`,
`traverseUI`, `findElement`, `performAction`, and `tap` and `swipe` through them, fails with
`Error('AndroidCoreBridge not initialized')` for every argument list, and the bridge is as it
was. -/
theorem bridge_uninitialized_fails (b : AndroidCoreBridge) (h : b.initialized = false)
    (options x y action startX startY endX endY duration keyCode text criteria elementId
      steps : Value) (now : Int) :
    b.captureScreen options now = (.error (.error "AndroidCoreBridge not initialized"), b) ∧
    b.simulateTouch x y action = (.error (.error "AndroidCoreBridge not initialized"), b) ∧
    b.simulateGesture startX startY endX endY duration =
      (.error (.error "AndroidCoreBridge not initialized"), b) ∧
    b.sendKeyEvent keyCode action = (.error (.error "AndroidCoreBridge not initialized"), b) ∧
    b.sendText text = (.error (.error "AndroidCoreBridge not initialized"), b) ∧
    b.getCurrentFocus = (.error (.error "AndroidCoreBridge not initialized"), b) ∧
    b.traverseUI = (.error (.error "AndroidCoreBridge not initialized"), b) ∧
    b.findElement criteria = (.error (.error "AndroidCoreBridge not initialized"), b) ∧
    b.performAction elementId action =
      (.error (.error "AndroidCoreBridge not initialized"), b) ∧
    b.tap x y = (.error (.error "AndroidCoreBridge not initialized"), b) ∧
    b.swipe startX startY endX endY steps =
      (.error (.error "AndroidCoreBridge not initialized"), b) := by
  simp [AndroidCoreBridge.captureScreen, simulateTouch_eq, simulateGesture_eq,
    sendKeyEvent_eq, sendText_eq, AndroidCoreBridge.getCurrentFocus,
    AndroidCoreBridge.traverseUI, AndroidCoreBridge.findElement, performAction_eq,
    AndroidCoreBridge.tap, AndroidCoreBridge.swipe, AndroidCoreBridge.notInitialized, h]

theorem bridge_uninitialized_fails_witness :
    AndroidCoreBridge.constructor.initialized = false ∧
    AndroidCoreBridge.constructor.sendText (.str (units "hi")) =
      (.error (.error "AndroidCoreBridge not initialized"), AndroidCoreBridge.constructor) ∧
    AndroidCoreBridge.constructor.tap (.num 3) (.num 4) =
      (.error (.error "AndroidCoreBridge not initialized"), AndroidCoreBridge.constructor) :=
  have h := bridge_uninitialized_fails AndroidCoreBridge.constructor rfl
    .undefined (.num 3) (.num 4) .undefined .undefined .undefined .undefined .undefined
    .undefined .undefined (.str (units "hi")) .undefined .undefined .undefined 0
  ⟨rfl, h.2.2.2.2.1, h.2.2.2.2.2.2.2.2.2.1⟩

/-- C7, the claim as stated, fails: on the initialized bridge `captureScreen({format: 'png'})`
and `findElement({text: 'OK'})` return records in which the argument occurs nowhere,
`simulateTouch(1, 2, undefined)` returns `action: 'tap'`, not the `undefined` passed, and
`sendText(null)` and `simulateTouch({toString: 1}, 2)` return no record: they throw a
`TypeError`. -/
theorem bridge_echo_counterexample :
    AndroidCoreBridge.ready.initialized = true ∧
    (AndroidCoreBridge.ready.captureScreen (.obj [("format", .str (units "png"))]) 0).1 =
      .ok (.obj [("success", .bool true), ("imageData", .null), ("timestamp", .num 0),
                 ("dimensions", .obj [("width", .num 0), ("height", .num 0)])]) ∧
    Value.obj [("format", .str (units "png"))] ∉
      (Value.obj [("success", .bool true), ("imageData", .null), ("timestamp", .num 0),
                  ("dimensions", .obj [("width", .num 0), ("height", .num 0)])]).parts ∧
    (AndroidCoreBridge.ready.findElement (.obj [("text", .str (units "OK"))])).1 =
      .ok (.obj [("success", .bool true), ("elements", .arr [])]) ∧
    Value.obj [("text", .str (units "OK"))] ∉
      (Value.obj [("success", .bool true), ("elements", .arr [])]).parts ∧
    (AndroidCoreBridge.ready.simulateTouch (.num 1) (.num 2) .undefined).1 =
      .ok (.obj [("success", .bool true), ("action", .str (units "tap")),
                 ("coordinates", .obj [("x", .num 1), ("y", .num 2)])]) ∧
    Value.undefined ∉
      (Value.obj [("success", .bool true), ("action", .str (units "tap")),
                  ("coordinates", .obj [("x", .num 1), ("y", .num 2)])]).parts ∧
    (AndroidCoreBridge.ready.sendText .null).1 = .error .typeError ∧
    (AndroidCoreBridge.ready.simulateTouch (.obj [("toString", .num 1)]) (.num 2)
      .undefined).1 = .error .typeError := by
  refine ⟨rfl, rfl, ?_, rfl, ?_, rfl, ?_, rfl, rfl⟩
  · simp [Value.parts, Value.partsFields, Value.partsList]
  · simp [Value.parts, Value.partsFields, Value.partsList]
  · simp [Value.parts, Value.partsFields, Value.partsList]

/-- C7, amended: on an initialized bridge every one of the nine operations leaves the bridge
as it was.  `captureScreen`, `getCurrentFocus`, `traverseUI` and `findElement` always return
their fixed records with `success: true`, which do not carry `options` or `criteria`.
`simulateTouch`, `simulateGesture`, `sendKeyEvent`, `sendText` and `performAction` first
convert their arguments to strings for the log line (an `undefined` `action` or `duration`
replaced by its default `'tap'`, `100`, `'press'`): when every argument converts they return
the record with `success: true` that carries each argument, `sendText` only for a `text`
other than `null` and `undefined`, on which it throws a `TypeError`; when an argument does not
convert they throw a `TypeError`.  Numbers, strings, booleans, `null` and `undefined`
convert; an object converts unless it has an own `toString` property; an array converts
unless one of its elements does not. -/
theorem bridge_initialized_results (b : AndroidCoreBridge) (h : b.initialized = true)
    (options x y action startX startY endX endY duration keyCode text criteria
      elementId : Value) (now : Int) :
    b.captureScreen options now =
      (.ok (.obj [("success", .bool true), ("imageData", .null), ("timestamp", .num now),
                  ("dimensions", .obj [("width", .num 0), ("height", .num 0)])]), b) ∧
    b.getCurrentFocus =
      (.ok (.obj [("success", .bool true), ("element", .null), ("packageName", .null)]), b) ∧
    b.traverseUI = (.ok (.obj [("success", .bool true), ("hierarchy", .null)]), b) ∧
    b.findElement criteria = (.ok (.obj [("success", .bool true), ("elements", .arr [])]), b) ∧
    ((action.orDefault (.str (units "tap"))).toStringThrows = false →
      x.toStringThrows = false → y.toStringThrows = false →
      b.simulateTouch x y action =
        (.ok (.obj [("success", .bool true),
                    ("action", action.orDefault (.str (units "tap"))),
                    ("coordinates", .obj [("x", x), ("y", y)])]), b)) ∧
    ((action.orDefault (.str (units "tap"))).toStringThrows = true ∨
        x.toStringThrows = true ∨ y.toStringThrows = true →
      b.simulateTouch x y action = (.error .typeError, b)) ∧
    (startX.toStringThrows = false → startY.toStringThrows = false →
      endX.toStringThrows = false → endY.toStringThrows = false →
      (duration.orDefault (.num 100)).toStringThrows = false →
      b.simulateGesture startX startY endX endY duration =
        (.ok (.obj [("success", .bool true), ("gesture", .str (units "swipe")),
                    ("start", .obj [("x", startX), ("y", startY)]),
                    ("end", .obj [("x", endX), ("y", endY)]),
                    ("duration", duration.orDefault (.num 100))]), b)) ∧
    (startX.toStringThrows = true ∨ startY.toStringThrows = true ∨
        endX.toStringThrows = true ∨ endY.toStringThrows = true ∨
        (duration.orDefault (.num 100)).toStringThrows = true →
      b.simulateGesture startX startY endX endY duration = (.error .typeError, b)) ∧
    (keyCode.toStringThrows = false →
      (action.orDefault (.str (units "press"))).toStringThrows = false →
      b.sendKeyEvent keyCode action =
        (.ok (.obj [("success", .bool true), ("keyCode", keyCode),
                    ("action", action.orDefault (.str (units "press")))]), b)) ∧
    (keyCode.toStringThrows = true ∨
        (action.orDefault (.str (units "press"))).toStringThrows = true →
      b.sendKeyEvent keyCode action = (.error .typeError, b)) ∧
    (text.toStringThrows = false → ∀ length, text.get "length" = .ok length →
      b.sendText text =
        (.ok (.obj [("success", .bool true), ("text", text), ("length", length)]), b)) ∧
    (∀ s : JSString, b.sendText (.str s) =
      (.ok (.obj [("success", .bool true), ("text", .str s), ("length", .num s.length)]), b)) ∧
    (text.toStringThrows = true → b.sendText text = (.error .typeError, b)) ∧
    b.sendText .null = (.error .typeError, b) ∧
    b.sendText .undefined = (.error .typeError, b) ∧
    (action.toStringThrows = false → elementId.toStringThrows = false →
      b.performAction elementId action =
        (.ok (.obj [("success", .bool true), ("elementId", elementId), ("action", action)]),
          b)) ∧
    (action.toStringThrows = true ∨ elementId.toStringThrows = true →
      b.performAction elementId action = (.error .typeError, b)) ∧
    ((∀ n : Int, (Value.num n).toStringThrows = false) ∧
      (∀ s : JSString, (Value.str s).toStringThrows = false) ∧
      (∀ c : Bool, (Value.bool c).toStringThrows = false) ∧
      Value.null.toStringThrows = false ∧
      Value.undefined.toStringThrows = false ∧
      (∀ fields : List (String × Value),
        (Value.obj fields).toStringThrows = true ↔ ∃ v, Obj.get fields "toString" = some v) ∧
      (∀ xs : List Value,
        (Value.arr xs).toStringThrows = true ↔ ∃ v ∈ xs, v.toStringThrows = true)) := by
  refine ⟨?_, ?_, ?_, ?_, ?_, ?_, ?_, ?_, ?_, ?_, ?_, ?_, ?_, ?_, ?_, ?_, ?_, ?_⟩
  · simp [AndroidCoreBridge.captureScreen, h]
  · simp [AndroidCoreBridge.getCurrentFocus, h]
  · simp [AndroidCoreBridge.traverseUI, h]
  · simp [AndroidCoreBridge.findElement, h]
  · intro h1 h2 h3
    simp [simulateTouch_eq, h, h1, h2, h3]
  · intro h1
    rw [simulateTouch_eq, if_neg (by simp [h]), if_pos (by simpa [or_assoc] using h1)]
  · intro h1 h2 h3 h4 h5
    simp [simulateGesture_eq, h, h1, h2, h3, h4, h5]
  · intro h1
    rw [simulateGesture_eq, if_neg (by simp [h]), if_pos (by simpa [or_assoc] using h1)]
  · intro h1 h2
    simp [sendKeyEvent_eq, h, h1, h2]
  · intro h1
    rw [sendKeyEvent_eq, if_neg (by simp [h]), if_pos (by simpa [or_assoc] using h1)]
  · intro h1 length hl
    simp [sendText_eq, h, h1, hl]
  · intro s
    simp [sendText_eq, h, Value.toStringThrows, Value.get]
  · intro h1
    simp [sendText_eq, h, h1]
  · simp [sendText_eq, h, Value.toStringThrows, Value.get]
  · simp [sendText_eq, h, Value.toStringThrows, Value.get]
  · intro h1 h2
    simp [performAction_eq, h, h1, h2]
  · intro h1
    rw [performAction_eq, if_neg (by simp [h]), if_pos (by simpa [or_assoc] using h1)]
  · refine ⟨fun _ => rfl, fun _ => rfl, fun _ => rfl, rfl, rfl, ?_, ?_⟩
    · intro fields
      simp [Value.toStringThrows, Option.isSome_iff_exists]
    · intro xs
      simp [Value.toStringThrows, joinThrows_iff]

theorem bridge_initialized_results_witness :
    AndroidCoreBridge.ready.initialized = true ∧
    AndroidCoreBridge.ready.sendText (.str (units "hi")) =
      (.ok (.obj [("success", .bool true), ("text", .str (units "hi")), ("length", .num 2)]),
        AndroidCoreBridge.ready) ∧
    AndroidCoreBridge.ready.performAction (.num 7) (.str (units "click")) =
      (.ok (.obj [("success", .bool true), ("elementId", .num 7),
                  ("action", .str (units "click"))]), AndroidCoreBridge.ready) ∧
    AndroidCoreBridge.ready.simulateTouch (.obj [("toString", .num 1)]) (.num 4)
        (.str (units "click")) = (.error .typeError, AndroidCoreBridge.ready) :=
  have h := bridge_initialized_results AndroidCoreBridge.ready rfl
    .undefined (.obj [("toString", .num 1)]) (.num 4) (.str (units "click")) .undefined
    .undefined .undefined .undefined .undefined .undefined (.str (units "hi")) .undefined
    (.num 7) 0
  ⟨rfl, h.2.2.2.2.2.2.2.2.2.2.2.1 (units "hi"),
    h.2.2.2.2.2.2.2.2.2.2.2.2.2.2.2.1 rfl rfl,
    h.2.2.2.2.2.1 (Or.inr (Or.inl rfl))⟩

/-! ## The Orchestrator: dispatch -/

theorem core_processTask_eq (lower : JSString → JSString) (c : OpenALawCore) (t : JSString) :
    c.processTask lower t =
      (.ok (.str ((if OpenALawCore.determineExecutionTarget lower t = units "local"
        then units "[LOCAL] Processed: " else units "[REMOTE] Processed: ")
        ++ t.take 50 ++ units "...")), c) := by
  simp only [OpenALawCore.processTask]
  split_ifs with h
  · simp only [OpenALawCore.executeLocally, substring_zero]
  · simp only [OpenALawCore.executeRemotely, substring_zero]

theorem set_bridge_self (o : OpenALaw) (b : AndroidCoreBridge) (h : o.bridge = some b) :
    { o with bridge := some b } = o := by
  cases o
  simp only at h
  subst h
  rfl

theorem set_core_self (o : OpenALaw) (c : OpenALawCore) (h : o.core = some c) :
    { o with core := some c } = o := by
  cases o
  simp only at h
  subst h
  rfl

theorem handleSystemTask_eq (lower : JSString → JSString) (o : OpenALaw)
    (b : AndroidCoreBridge) (t : JSString) (now : Int) (hb : o.bridge = some b)
    (hi : b.initialized = true) :
    OpenALaw.handleSystemTask lower o t now =
      (if includes (lower t) (units "screen") = true then
        .ok (.obj [("success", .bool true), ("imageData", .null), ("timestamp", .num now),
                   ("dimensions", .obj [("width", .num 0), ("height", .num 0)])])
      else if (includes (lower t) (units "touch") || includes (lower t) (units "click")) = true
      then
        match coordRegexSearch t with
        | some m =>
          .ok (.obj [("success", .bool true), ("action", .str (units "tap")),
                     ("coordinates", .obj [("x", .num (parseInt m.x)),
                                           ("y", .num (parseInt m.y))])])
        | none => .ok OpenALaw.notImplemented
      else .ok OpenALaw.notImplemented, o) := by
  unfold OpenALaw.handleSystemTask
  by_cases h1 : includes (lower t) (units "screen") = true
  · simp only [h1, if_true, hb, AndroidCoreBridge.captureScreen, hi, Bool.not_true,
      Bool.false_eq_true, if_false, set_bridge_self o b hb]
  · simp only [h1, if_false]
    by_cases h2 : (includes (lower t) (units "touch") || includes (lower t) (units "click"))
        = true
    · simp only [h2, if_true, extractCoordinates_eq]
      cases coordRegexSearch t with
      | none => simp [Value.truthy]
      | some m =>
        simp [Value.truthy, hb, Value.get, Obj.get, AndroidCoreBridge.tap,
          simulateTouch_eq, Value.toStringThrows, hi, Value.orDefault,
          set_bridge_self o b hb]
    · simp only [h2, Bool.false_eq_true, if_false]

theorem handleSystemTask_fallthrough (lower : JSString → JSString) (o : OpenALaw)
    (t : JSString) (now : Int) (h1 : includes (lower t) (units "screen") = false)
    (h2 : includes (lower t) (units "touch") = false)
    (h3 : includes (lower t) (units "click") = false) :
    OpenALaw.handleSystemTask lower o t now = (.ok OpenALaw.notImplemented, o) := by
  simp [OpenALaw.handleSystemTask, h1, h2, h3]

theorem orchestrator_processTask_eq (lower : JSString → JSString) (o : OpenALaw)
    (c : OpenALawCore) (t : JSString) (now : Int) (hc : o.core = some c) :
    OpenALaw.processTask lower o t now =
      if OpenALaw.requiresSystemInteraction lower t = true then
        match OpenALaw.handleSystemTask lower o t now with
        | (.error e, o2) => (.error e, o2)
        | (.ok systemResult, o2) =>
          (.ok (.obj [("core", .str ((if OpenALawCore.determineExecutionTarget lower t =
                          units "local"
                        then units "[LOCAL] Processed: " else units "[REMOTE] Processed: ")
                        ++ t.take 50 ++ units "...")),
                      ("system", systemResult), ("combined", .bool true)]), o2)
      else
        (.ok (.str ((if OpenALawCore.determineExecutionTarget lower t = units "local"
          then units "[LOCAL] Processed: " else units "[REMOTE] Processed: ")
          ++ t.take 50 ++ units "...")), o) := by
  unfold OpenALaw.processTask
  simp only [hc, core_processTask_eq, set_core_self o c hc]

/-- C5: on an Orchestrator whose Core Agent is in place and whose bridge is initialized,
`processTask(t)` returns `{core, system, combined: true}` exactly when
`requiresSystemInteraction(t)` holds, with `core` the string the Core Agent's `processTask(t)`
returns and `system` the result of `handleSystemTask(t)`; otherwise it returns that string
alone, and does so whatever the bridge field holds (also `null`), so no bridge operation runs.
The Orchestrator is left as it was. -/
theorem orchestrator_processTask_combined (lower : JSString → JSString) (o : OpenALaw)
    (c : OpenALawCore) (b : AndroidCoreBridge) (t : JSString) (now : Int)
    (hc : o.core = some c) (hb : o.bridge = some b) (hi : b.initialized = true) :
    ∃ (coreResult : JSString) (systemResult : Value),
      c.processTask lower t = (.ok (.str coreResult), c) ∧
      OpenALaw.handleSystemTask lower o t now = (.ok systemResult, o) ∧
      (OpenALaw.requiresSystemInteraction lower t = true →
        OpenALaw.processTask lower o t now =
          (.ok (.obj [("core", .str coreResult), ("system", systemResult),
                      ("combined", .bool true)]), o)) ∧
      (OpenALaw.requiresSystemInteraction lower t = false →
        OpenALaw.processTask lower o t now = (.ok (.str coreResult), o) ∧
        ∀ other : Option AndroidCoreBridge,
          OpenALaw.processTask lower { o with bridge := other } t now =
            (.ok (.str coreResult), { o with bridge := other })) ∧
      ((∃ cv sv, (OpenALaw.processTask lower o t now).1 =
          .ok (.obj [("core", cv), ("system", sv), ("combined", .bool true)])) ↔
        OpenALaw.requiresSystemInteraction lower t = true) := by
  have hsys : ∃ systemResult, OpenALaw.handleSystemTask lower o t now = (.ok systemResult, o) := by
    rw [handleSystemTask_eq lower o b t now hb hi]
    split_ifs
    · exact ⟨_, rfl⟩
    · cases coordRegexSearch t <;> exact ⟨_, rfl⟩
    · exact ⟨_, rfl⟩
  obtain ⟨systemResult, hs⟩ := hsys
  refine ⟨_, systemResult, core_processTask_eq lower c t, hs, ?_, ?_, ?_⟩
  · intro hr
    rw [orchestrator_processTask_eq lower o c t now hc, if_pos hr, hs]
  · intro hr
    have hr2 : ¬ OpenALaw.requiresSystemInteraction lower t = true := by simp [hr]
    refine ⟨?_, fun other => ?_⟩
    · rw [orchestrator_processTask_eq lower o c t now hc, if_neg hr2]
    · rw [orchestrator_processTask_eq lower { o with bridge := other } c t now hc, if_neg hr2]
  · rw [orchestrator_processTask_eq lower o c t now hc]
    constructor
    · rintro ⟨cv, sv, h⟩
      by_contra hr
      rw [if_neg hr] at h
      simp at h
    · intro hr
      rw [if_pos hr, hs]
      exact ⟨_, _, rfl⟩

theorem orchestrator_processTask_combined_witness :
    (OpenALaw.ready (.obj [])).core = some (OpenALawCore.ready (.obj [])) ∧
    (OpenALaw.ready (.obj [])).bridge = some AndroidCoreBridge.ready ∧
    AndroidCoreBridge.ready.initialized = true ∧
    ∃ (coreResult : JSString) (systemResult : Value),
      (OpenALawCore.ready (.obj [])).processTask asciiToLowerCase (units "tap here") =
        (.ok (.str coreResult), OpenALawCore.ready (.obj [])) ∧
      OpenALaw.handleSystemTask asciiToLowerCase (OpenALaw.ready (.obj [])) (units "tap here") 0
        = (.ok systemResult, OpenALaw.ready (.obj [])) :=
  ⟨rfl, rfl, rfl,
    let ⟨coreResult, systemResult, h1, h2, _⟩ :=
      orchestrator_processTask_combined asciiToLowerCase (OpenALaw.ready (.obj []))
        (OpenALawCore.ready (.obj [])) AndroidCoreBridge.ready (units "tap here") 0 rfl rfl rfl
    ⟨coreResult, systemResult, h1, h2⟩⟩

/-- C9: on an Orchestrator with an initialized bridge, a task whose lower-cased form holds
none of `screen`, `touch`, `click` gets exactly `{success: false, reason: 'System task not
implemented yet'}`, and gets it whatever the bridge field holds (also `null`), so no bridge
operation runs; a task whose lower-cased form holds `screen` gets the success record of
`captureScreen()`, whether or not it also holds `touch`, `click` or numbers, as for
`'click 10 20 on the Screen'`. -/
theorem handleSystemTask_cases (lower : JSString → JSString) (o : OpenALaw)
    (b : AndroidCoreBridge) (t : JSString) (now : Int) (hb : o.bridge = some b)
    (hi : b.initialized = true) :
    ((¬ units "screen" <:+: lower t ∧ ¬ units "touch" <:+: lower t ∧
        ¬ units "click" <:+: lower t) →
      OpenALaw.handleSystemTask lower o t now =
        (.ok (.obj [("success", .bool false),
                    ("reason", .str (units "System task not implemented yet"))]), o) ∧
      ∀ other : Option AndroidCoreBridge,
        OpenALaw.handleSystemTask lower { o with bridge := other } t now =
          (.ok (.obj [("success", .bool false),
                      ("reason", .str (units "System task not implemented yet"))]),
            { o with bridge := other })) ∧
    (units "screen" <:+: lower t →
      OpenALaw.handleSystemTask lower o t now =
        (.ok (.obj [("success", .bool true), ("imageData", .null), ("timestamp", .num now),
                    ("dimensions", .obj [("width", .num 0), ("height", .num 0)])]), o) ∧
      (OpenALaw.handleSystemTask lower o t now).1 = (b.captureScreen .undefined now).1) ∧
    OpenALaw.handleSystemTask asciiToLowerCase (OpenALaw.ready (.obj []))
        (units "click 10 20 on the Screen") 5 =
      (.ok (.obj [("success", .bool true), ("imageData", .null), ("timestamp", .num 5),
                  ("dimensions", .obj [("width", .num 0), ("height", .num 0)])]),
        OpenALaw.ready (.obj [])) := by
  refine ⟨?_, ?_, by rfl⟩
  · rintro ⟨h1, h2, h3⟩
    have e1 : includes (lower t) (units "screen") = false :=
      Bool.eq_false_iff.2 (fun e => h1 ((includes_iff _ _).1 e))
    have e2 : includes (lower t) (units "touch") = false :=
      Bool.eq_false_iff.2 (fun e => h2 ((includes_iff _ _).1 e))
    have e3 : includes (lower t) (units "click") = false :=
      Bool.eq_false_iff.2 (fun e => h3 ((includes_iff _ _).1 e))
    exact ⟨handleSystemTask_fallthrough lower o t now e1 e2 e3,
      fun other => handleSystemTask_fallthrough lower _ t now e1 e2 e3⟩
  · intro h
    have e1 : includes (lower t) (units "screen") = true := (includes_iff _ _).2 h
    have hres := handleSystemTask_eq lower o b t now hb hi
    rw [if_pos e1] at hres
    refine ⟨hres, ?_⟩
    rw [hres]
    simp [AndroidCoreBridge.captureScreen, hi]

theorem handleSystemTask_cases_witness :
    (OpenALaw.ready (.obj [])).bridge = some AndroidCoreBridge.ready ∧
    AndroidCoreBridge.ready.initialized = true ∧
    units "screen" <:+: asciiToLowerCase (units "Show the SCREEN") ∧
    OpenALaw.handleSystemTask asciiToLowerCase (OpenALaw.ready (.obj []))
        (units "Show the SCREEN") 9 =
      (.ok (.obj [("success", .bool true), ("imageData", .null), ("timestamp", .num 9),
                  ("dimensions", .obj [("width", .num 0), ("height", .num 0)])]),
        OpenALaw.ready (.obj [])) ∧
    ¬ units "screen" <:+: asciiToLowerCase (units "open the app") ∧
    OpenALaw.handleSystemTask asciiToLowerCase (OpenALaw.ready (.obj []))
        (units "open the app") 9 =
      (.ok (.obj [("success", .bool false),
                  ("reason", .str (units "System task not implemented yet"))]),
        OpenALaw.ready (.obj [])) :=
  have h := handleSystemTask_cases asciiToLowerCase (OpenALaw.ready (.obj []))
    AndroidCoreBridge.ready (units "Show the SCREEN") 9 rfl rfl
  have h2 := handleSystemTask_cases asciiToLowerCase (OpenALaw.ready (.obj []))
    AndroidCoreBridge.ready (units "open the app") 9 rfl rfl
  ⟨rfl, rfl, by decide, (h.2.1 (by decide)).1, by decide,
    (h2.1 ⟨by decide, by decide, by decide⟩).1⟩

/-! ## The Core Agent: initialization and configuration -/

/-- C8, the claim as stated, fails: a freshly constructed Core Agent, whose status reports
`initialized: false`, answers `processTask('hello')` with `'[LOCAL] Processed: hello...'`. -/
theorem core_processTask_uninitialized_counterexample :
    (OpenALawCore.constructor .undefined).taskScheduler = none ∧
    ((OpenALawCore.constructor .undefined).getStatus (units "2026-01-01T00:00:00.000Z")).get
        "initialized" = .ok (.bool false) ∧
    (OpenALawCore.constructor .undefined).processTask asciiToLowerCase (units "hello") =
      (.ok (.str (units "[LOCAL] Processed: hello...")), OpenALawCore.constructor .undefined) := by
  refine ⟨rfl, by rfl, by rfl⟩

/-- C8, amended: the Core Agent's `processTask(t)` has no initialization precondition.  On a
freshly constructed Core Agent (status `initialized: false`) it throws nothing and returns the
formatted string, the same string as after `initialize()`. -/
theorem core_processTask_without_initialize (lower : JSString → JSString) (config : Value)
    (t : JSString) (timestamp : JSString) :
    ((OpenALawCore.constructor config).getStatus timestamp).get "initialized" =
      .ok (.bool false) ∧
    ((OpenALawCore.ready config).getStatus timestamp).get "initialized" = .ok (.bool true) ∧
    (OpenALawCore.constructor config).processTask lower t =
      (.ok (.str ((if OpenALawCore.determineExecutionTarget lower t = units "local"
        then units "[LOCAL] Processed: " else units "[REMOTE] Processed: ")
        ++ t.take 50 ++ units "...")), OpenALawCore.constructor config) ∧
    ((OpenALawCore.constructor config).processTask lower t).1 =
      ((OpenALawCore.ready config).processTask lower t).1 := by
  refine ⟨by rfl, by rfl, core_processTask_eq lower _ t, ?_⟩
  rw [core_processTask_eq, core_processTask_eq]

theorem Obj.get_set {β : Type} (fields : List (String × β)) (key : String) (v : β)
    (key2 : String) :
    Obj.get (Obj.set fields key v) key2 = if key = key2 then some v else Obj.get fields key2 := by
  induction fields with
  | nil => simp [Obj.set, Obj.get]
  | cons entry rest ih =>
    obtain ⟨k, w⟩ := entry
    by_cases hk : k = key
    · subst hk
      by_cases hk2 : k = key2
      · simp [Obj.set, Obj.get, hk2]
      · simp [Obj.set, Obj.get, hk2]
    · by_cases hk2 : k = key2
      · subst hk2
        simp [Obj.set, Obj.get, hk, Ne.symm hk]
      · simp [Obj.set, Obj.get, hk, hk2, ih]

theorem ready_config (config : Value) :
    (OpenALawCore.ready config).config =
      .obj (Obj.set (Obj.set (Obj.set (config.orDefault (.obj [])).spread
        "platform" (.str (units "Android")))
        "architecture" (.str (units "ARM")))
        "agentId" (.str (units "AgentBot11"))) := rfl

/-- C10, the claim as stated, fails: built from `{platform: 'iOS', model: 'x'}`, the Core
Agent after `initialize()` holds `platform: 'Android'`, not the caller's `'iOS'`. -/
theorem config_platform_counterexample :
    (Value.obj [("platform", .str (units "iOS")), ("model", .str (units "x"))]).get "platform"
      = .ok (.str (units "iOS")) ∧
    (OpenALawCore.ready
        (.obj [("platform", .str (units "iOS")), ("model", .str (units "x"))])).config =
      .obj [("platform", .str (units "Android")), ("model", .str (units "x")),
            ("architecture", .str (units "ARM")), ("agentId", .str (units "AgentBot11"))] ∧
    (OpenALawCore.ready
        (.obj [("platform", .str (units "iOS")), ("model", .str (units "x"))])).config.get
      "platform" = .ok (.str (units "Android")) ∧
    Value.str (units "Android") ≠ Value.str (units "iOS") := by
  refine ⟨by rfl, by rfl, by rfl, ?_⟩
  intro h
  injection h with h
  exact absurd h (by decide)

/-- C10, amended: construction keeps the configuration object as passed, in the Core Agent
and in the Orchestrator, and the Orchestrator's own config is still that object after
`initialize()`.  The Core Agent's config after `initialize()` (also the one inside the
Orchestrator) holds every caller key other than `platform`, `architecture` and `agentId` with
the caller's value; those three keys hold `'Android'`, `'ARM'` and `'AgentBot11'` whatever the
caller supplied. -/
theorem config_after_initialize (fields : List (String × Value)) :
    (OpenALawCore.constructor (.obj fields)).config = .obj fields ∧
    (OpenALaw.constructor (.obj fields)).config = .obj fields ∧
    (OpenALaw.ready (.obj fields)).config = .obj fields ∧
    (OpenALaw.ready (.obj fields)).core = some (OpenALawCore.ready (.obj fields)) ∧
    (∀ key : String, key ≠ "platform" → key ≠ "architecture" → key ≠ "agentId" →
      (OpenALawCore.ready (.obj fields)).config.get key = (Value.obj fields).get key) ∧
    (OpenALawCore.ready (.obj fields)).config.get "platform" = .ok (.str (units "Android")) ∧
    (OpenALawCore.ready (.obj fields)).config.get "architecture" = .ok (.str (units "ARM")) ∧
    (OpenALawCore.ready (.obj fields)).config.get "agentId" =
      .ok (.str (units "AgentBot11")) := by
  refine ⟨rfl, rfl, rfl, rfl, ?_, ?_, ?_, ?_⟩
  · intro key h1 h2 h3
    rw [ready_config]
    simp only [Value.get, Value.orDefault, Value.spread, Obj.get_set, if_neg (Ne.symm h1),
      if_neg (Ne.symm h2), if_neg (Ne.symm h3)]
  · rw [ready_config]
    simp [Value.get, Obj.get_set]
  · rw [ready_config]
    simp [Value.get, Obj.get_set]
  · rw [ready_config]
    simp [Value.get, Obj.get_set]

/-! ## The task queue -/

theorem processQueueLoop_enough (fuel : Nat) (s : TaskScheduler) (h : s.queue.length ≤ fuel) :
    TaskScheduler.processQueueLoop fuel s = some (s.queue.map some, { s with queue := [] }) := by
  induction fuel generalizing s with
  | zero =>
    obtain ⟨config, queue⟩ := s
    have hq : queue = [] := List.length_eq_zero.1 (Nat.le_zero.1 h)
    subst hq
    simp [TaskScheduler.processQueueLoop]
  | succ fuel ih =>
    obtain ⟨config, queue⟩ := s
    cases queue with
    | nil => simp [TaskScheduler.processQueueLoop]
    | cons task rest =>
      have hrest : rest.length ≤ fuel := by
        simp only [List.length_cons] at h
        omega
      have hih := ih { config := config, queue := rest } hrest
      simp only [TaskScheduler.processQueueLoop, TaskScheduler.shift, List.length_cons,
        Nat.succ_pos, if_true, hih]
      simp

theorem processQueueLoop_short (fuel : Nat) (s : TaskScheduler) (h : fuel < s.queue.length) :
    TaskScheduler.processQueueLoop fuel s = none := by
  induction fuel generalizing s with
  | zero => simp [TaskScheduler.processQueueLoop, h]
  | succ fuel ih =>
    obtain ⟨config, queue⟩ := s
    cases queue with
    | nil => simp at h
    | cons task rest =>
      have hrest : fuel < rest.length := by
        simp only [List.length_cons] at h
        omega
      have hih := ih { config := config, queue := rest } hrest
      simp only [TaskScheduler.processQueueLoop, TaskScheduler.shift, List.length_cons,
        Nat.succ_pos, if_true, hih]

theorem addAll_eq (s : TaskScheduler) (tasks : List JSString) :
    s.addAll tasks = { s with queue := s.queue ++ tasks } := by
  induction tasks generalizing s with
  | nil =>
    obtain ⟨config, queue⟩ := s
    simp [TaskScheduler.addAll]
  | cons task rest ih =>
    have hstep : s.addAll (task :: rest) = (s.addTask task).2.addAll rest := rfl
    rw [hstep, ih]
    simp [TaskScheduler.addTask]

/-- C11: after `addTask` for each of `N` tasks on a fresh scheduler the queue is exactly
those tasks in insertion order.  The loop of `processQueue()` then ends after exactly `N`
iterations (any fuel of at least `N` is enough, less is not), each `shift()` taking the task
at the front, so the tasks are taken in order and the queue is left empty.  On an empty
queue the loop ends at once and changes nothing. -/
theorem taskScheduler_drains (config : Value) (tasks : List JSString) :
    ((TaskScheduler.constructor config).addAll tasks).queue = tasks ∧
    (∀ fuel, tasks.length ≤ fuel →
      TaskScheduler.processQueueLoop fuel ((TaskScheduler.constructor config).addAll tasks) =
        some (tasks.map some, TaskScheduler.constructor config)) ∧
    (∀ fuel, tasks.length ≤ fuel →
      TaskScheduler.processQueue fuel ((TaskScheduler.constructor config).addAll tasks) =
        some (.ok .undefined, TaskScheduler.constructor config)) ∧
    (∀ fuel, fuel < tasks.length →
      TaskScheduler.processQueueLoop fuel ((TaskScheduler.constructor config).addAll tasks) =
        none) ∧
    (tasks.map some).length = tasks.length ∧
    (∀ (s : TaskScheduler) (task : JSString) (rest : List JSString), s.queue = task :: rest →
      s.shift = (some task, { s with queue := rest })) ∧
    (∀ fuel, TaskScheduler.processQueueLoop fuel (TaskScheduler.constructor config) =
      some ([], TaskScheduler.constructor config)) ∧
    (∀ fuel, TaskScheduler.processQueue fuel (TaskScheduler.constructor config) =
      some (.ok .undefined, TaskScheduler.constructor config)) := by
  have hq : ((TaskScheduler.constructor config).addAll tasks).queue = tasks := by
    rw [addAll_eq]
    simp [TaskScheduler.constructor]
  have hloop : ∀ fuel, tasks.length ≤ fuel →
      TaskScheduler.processQueueLoop fuel ((TaskScheduler.constructor config).addAll tasks) =
        some (tasks.map some, TaskScheduler.constructor config) := by
    intro fuel hf
    rw [processQueueLoop_enough fuel _ (by rw [hq]; exact hf), hq, addAll_eq]
    rfl
  have hempty : ∀ fuel, TaskScheduler.processQueueLoop fuel (TaskScheduler.constructor config) =
      some ([], TaskScheduler.constructor config) := by
    intro fuel
    rw [processQueueLoop_enough fuel _ (by simp [TaskScheduler.constructor])]
    rfl
  refine ⟨hq, hloop, ?_, ?_, by simp, ?_, hempty, ?_⟩
  · intro fuel hf
    simp only [TaskScheduler.processQueue, hloop fuel hf]
  · intro fuel hf
    exact processQueueLoop_short fuel _ (by rw [hq]; exact hf)
  · intro s task rest hs
    simp only [TaskScheduler.shift, hs]
  · intro fuel
    simp only [TaskScheduler.processQueue, hempty fuel]

/-! ## Status and initialization -/

theorem bridge_status_initialized (b : AndroidCoreBridge) (ts : JSString) :
    (b.getStatus ts).get "initialized" = .ok (.bool b.initialized) := by
  simp [AndroidCoreBridge.getStatus, Value.get, Obj.get]

theorem core_status_initialized (c : OpenALawCore) (ts : JSString) :
    (c.getStatus ts).get "initialized" = .ok (.bool c.taskScheduler.isSome) := by
  simp [OpenALawCore.getStatus, Value.get, Obj.get]

/-- C12: `getStatus()` of the bridge, of the Core Agent and of the Orchestrator returns its
record and leaves the component as it was, so a second call sees the same state; two calls
that read different clock values return records that agree in every field other than
`timestamp`, the nested `core` and `bridge` records of the Orchestrator's status included
(they agree once every `timestamp` field is left out). -/
theorem getStatus_idempotent (lower : JSString → JSString) (b : AndroidCoreBridge)
    (c : OpenALawCore) (o : OpenALaw) (t1 t2 u1 u2 v1 v2 : JSString) :
    b.call (.getStatus t1) = (.ok (b.getStatus t1), b) ∧
    c.call lower (.getStatus t1) = (.ok (c.getStatus t1), c) ∧
    o.callGetStatus u1 v1 t1 = (.ok (o.getStatus u1 v1 t1), o) ∧
    (∀ key : String, key ≠ "timestamp" →
      (b.getStatus t1).get key = (b.getStatus t2).get key) ∧
    (∀ key : String, key ≠ "timestamp" →
      (c.getStatus t1).get key = (c.getStatus t2).get key) ∧
    (∀ key : String, key ≠ "timestamp" → key ≠ "core" → key ≠ "bridge" →
      (o.getStatus u1 v1 t1).get key = (o.getStatus u2 v2 t2).get key) ∧
    (b.getStatus t1).withoutTimestamps = (b.getStatus t2).withoutTimestamps ∧
    (c.getStatus t1).withoutTimestamps = (c.getStatus t2).withoutTimestamps ∧
    (o.getStatus u1 v1 t1).withoutTimestamps = (o.getStatus u2 v2 t2).withoutTimestamps := by
  refine ⟨rfl, rfl, rfl, ?_, ?_, ?_, ?_, ?_, ?_⟩
  · intro key h
    simp [AndroidCoreBridge.getStatus, Value.get, Obj.get, Ne.symm h]
  · intro key h
    simp [OpenALawCore.getStatus, Value.get, Obj.get, Ne.symm h]
  · intro key h hcore hbridge
    simp [OpenALaw.getStatus, Value.get, Obj.get, Ne.symm h, Ne.symm hcore, Ne.symm hbridge]
  · simp [AndroidCoreBridge.getStatus, Value.withoutTimestamps, Value.withoutTimestampsFields]
  · simp [OpenALawCore.getStatus, Value.withoutTimestamps, Value.withoutTimestampsFields]
  · cases hc : o.core <;> cases hb : o.bridge <;>
      simp [OpenALaw.getStatus, OpenALawCore.getStatus, AndroidCoreBridge.getStatus,
        Value.withoutTimestamps, Value.withoutTimestampsFields, hc, hb]

theorem bridge_call_frame (b : AndroidCoreBridge) (call : BridgeCall)
    (h : call.isInitStep = false) : (b.call call).2 = b := by
  cases call <;>
    first
    | (simp [BridgeCall.isInitStep] at h; done)
    | rfl
    | (simp only [AndroidCoreBridge.call, AndroidCoreBridge.swipe, AndroidCoreBridge.tap,
        simulateTouch_eq, simulateGesture_eq, sendKeyEvent_eq, sendText_eq, pressAndHold_eq,
        performAction_eq]; done)
    | (simp only [AndroidCoreBridge.call, AndroidCoreBridge.captureScreen,
        AndroidCoreBridge.getScreenInfo, AndroidCoreBridge.getCurrentFocus,
        AndroidCoreBridge.traverseUI, AndroidCoreBridge.findElement]
       split_ifs <;> rfl)

theorem bridge_call_initialized (b : AndroidCoreBridge) (call : BridgeCall)
    (h : b.initialized = true) : (b.call call).2.initialized = true := by
  cases hstep : call.isInitStep with
  | false =>
    rw [bridge_call_frame b call hstep]
    exact h
  | true =>
    cases call <;>
      first
      | (simp [BridgeCall.isInitStep] at hstep; done)
      | simp [AndroidCoreBridge.call, AndroidCoreBridge.initialize,
          AndroidCoreBridge.checkPermissions, AndroidCoreBridge.initDisplayInterface,
          AndroidCoreBridge.initInputInterface, AndroidCoreBridge.initAccessibilityInterface,
          h]

theorem bridge_run_initialized (b : AndroidCoreBridge) (calls : List BridgeCall)
    (h : b.initialized = true) : (b.run calls).initialized = true := by
  induction calls generalizing b with
  | nil => exact h
  | cons call rest ih => exact ih _ (bridge_call_initialized b call h)

theorem core_call_initialized (lower : JSString → JSString) (c : OpenALawCore)
    (call : CoreCall) (h : c.taskScheduler.isSome = true) :
    (c.call lower call).2.taskScheduler.isSome = true := by
  cases call <;>
    simp [OpenALawCore.call, OpenALawCore.initialize, OpenALawCore.loadConfig,
      OpenALawCore.executeLocally, OpenALawCore.executeRemotely, core_processTask_eq, h]

theorem core_run_initialized (lower : JSString → JSString) (c : OpenALawCore)
    (calls : List CoreCall) (h : c.taskScheduler.isSome = true) :
    (c.run lower calls).taskScheduler.isSome = true := by
  induction calls generalizing c with
  | nil => exact h
  | cons call rest ih => exact ih _ (core_call_initialized lower c call h)

/-- C13: a bridge whose status reports `initialized: true` still reports it after any
sequence of calls of its methods, `initialize()` and the methods it runs included, whether
the calls succeed or throw; the same holds for the Core Agent and any sequence of calls of
its methods. -/
theorem initialized_one_way (lower : JSString → JSString) (b : AndroidCoreBridge)
    (c : OpenALawCore) (bridgeCalls : List BridgeCall) (coreCalls : List CoreCall)
    (ts ts2 : JSString)
    (hb : (b.getStatus ts).get "initialized" = .ok (.bool true))
    (hc : (c.getStatus ts).get "initialized" = .ok (.bool true)) :
    ((b.run bridgeCalls).getStatus ts2).get "initialized" = .ok (.bool true) ∧
    ((c.run lower coreCalls).getStatus ts2).get "initialized" = .ok (.bool true) := by
  have hb2 : b.initialized = true := by
    rw [bridge_status_initialized] at hb
    simpa using hb
  have hc2 : c.taskScheduler.isSome = true := by
    rw [core_status_initialized] at hc
    simpa using hc
  rw [bridge_status_initialized, core_status_initialized,
    bridge_run_initialized b bridgeCalls hb2, core_run_initialized lower c coreCalls hc2]
  exact ⟨rfl, rfl⟩

theorem initialized_one_way_witness :
    (AndroidCoreBridge.ready.getStatus []).get "initialized" = .ok (.bool true) ∧
    ((OpenALawCore.ready .undefined).getStatus []).get "initialized" = .ok (.bool true) ∧
    ((AndroidCoreBridge.ready.run [.init, .sendText .null, .tap (.num 1) (.num 2)]).getStatus
      []).get "initialized" = .ok (.bool true) ∧
    (((OpenALawCore.ready .undefined).run asciiToLowerCase
      [.init, .processTask (units "hello"), .loadConfig]).getStatus []).get "initialized" =
        .ok (.bool true) :=
  have h := initialized_one_way asciiToLowerCase AndroidCoreBridge.ready
    (OpenALawCore.ready .undefined) [.init, .sendText .null, .tap (.num 1) (.num 2)]
    [.init, .processTask (units "hello"), .loadConfig] [] []
    (bridge_status_initialized _ _) (core_status_initialized _ _)
  ⟨bridge_status_initialized _ _, core_status_initialized _ _, h.1, h.2⟩

/-- C14: the status of a freshly constructed Orchestrator has `core: null` and
`bridge: null`.  From any state `initialize()` returns `true`, and afterwards both children
are in place and initialized: the status holds the Core Agent's record with
`initialized: true` and the bridge's record with `initialized: true`.  So `true` is never
returned with a child missing or uninitialized. -/
theorem orchestrator_initialized_with_children (config : Value) (o : OpenALaw)
    (u v t : JSString) :
    ((OpenALaw.constructor config).getStatus u v t).get "core" = .ok .null ∧
    ((OpenALaw.constructor config).getStatus u v t).get "bridge" = .ok .null ∧
    ( OpenALaw.initialize o).1 = .ok (.bool true) ∧
    ∃ (c : OpenALawCore) (b : AndroidCoreBridge),
      ( OpenALaw.initialize o).2.core = some c ∧
      ( OpenALaw.initialize o).2.bridge = some b ∧
      c.taskScheduler.isSome = true ∧
      b.initialized = true ∧
      (( OpenALaw.initialize o).2.getStatus u v t).get "core" = .ok (c.getStatus u) ∧
      (c.getStatus u).get "initialized" = .ok (.bool true) ∧
      (( OpenALaw.initialize o).2.getStatus u v t).get "bridge" = .ok (b.getStatus v) ∧
      (b.getStatus v).get "initialized" = .ok (.bool true) := by
  refine ⟨by rfl, by rfl, rfl, OpenALawCore.ready o.config, AndroidCoreBridge.ready,
    rfl, rfl, rfl, rfl, ?_, ?_, ?_, ?_⟩
  · simp [OpenALaw.getStatus, OpenALaw.initialize, OpenALawCore.initialize,
      AndroidCoreBridge.initialize, Value.get, Obj.get, OpenALawCore.ready]
  · rw [core_status_initialized]
    rfl
  · simp [OpenALaw.getStatus, OpenALaw.initialize, OpenALawCore.initialize,
      AndroidCoreBridge.initialize, Value.get, Obj.get, AndroidCoreBridge.ready]
  · rw [bridge_status_initialized]
    rfl

/-- C15: after `initialize()` on a freshly constructed bridge the status reports
`initialized: true`, the permissions `accessibility`, `overlay`, `usageStats`, `inputMethod`,
all `false` and no other, and the interface names `display`, `input`, `accessibility` in that
order; before `initialize()` it reports `initialized: false` (with no permission and no
interface). -/
theorem bridge_status_after_initialize (ts : JSString) :
    AndroidCoreBridge.ready.getStatus ts =
      .obj [("initialized", .bool true),
            ("permissions", .obj [("accessibility", .bool false), ("overlay", .bool false),
                                  ("usageStats", .bool false), ("inputMethod", .bool false)]),
            ("interfaces", .arr [.str (units "display"), .str (units "input"),
                                 .str (units "accessibility")]),
            ("architecture", .str (units "ARM")),
            ("platform", .str (units "Android")),
            ("timestamp", .str ts)] ∧
    (AndroidCoreBridge.ready.getStatus ts).get "initialized" = .ok (.bool true) ∧
    AndroidCoreBridge.constructor.getStatus ts =
      .obj [("initialized", .bool false),
            ("permissions", .obj []),
            ("interfaces", .arr []),
            ("architecture", .str (units "ARM")),
            ("platform", .str (units "Android")),
            ("timestamp", .str ts)] ∧
    (AndroidCoreBridge.constructor.getStatus ts).get "initialized" = .ok (.bool false) := by
  refine ⟨by rfl, ?_, by rfl, ?_⟩
  · rw [bridge_status_initialized]
    rfl
  · rw [bridge_status_initialized]
    rfl

/-! ## Routing and detection together -/

theorem orchestrator_processTask_fallthrough (lower : JSString → JSString) (o : OpenALaw)
    (c : OpenALawCore) (t : JSString) (now : Int) (hc : o.core = some c)
    (hreq : OpenALaw.requiresSystemInteraction lower t = true)
    (h1 : includes (lower t) (units "screen") = false)
    (h2 : includes (lower t) (units "touch") = false)
    (h3 : includes (lower t) (units "click") = false) :
    OpenALaw.processTask lower o t now =
      (.ok (.obj [("core", .str ((if OpenALawCore.determineExecutionTarget lower t =
                      units "local"
                    then units "[LOCAL] Processed: " else units "[REMOTE] Processed: ")
                    ++ t.take 50 ++ units "...")),
                  ("system", OpenALaw.notImplemented), ("combined", .bool true)]), o) := by
  rw [orchestrator_processTask_eq lower o c t now hc, if_pos hreq,
    handleSystemTask_fallthrough lower o t now h1 h2 h3]

/-- C16: under any lower-casing that is right on ASCII text the two checks are independent.
`'debug the swipe gesture'` is `local` and system-interacting, `'hello'` is `local` and not,
`'Analyze this input'` is `remote` and system-interacting, `'summarize this text'` is
`remote` and not.  For `'debug the swipe gesture'` an Orchestrator with its Core Agent in
place returns the combined record whose `core` is
`'[LOCAL] Processed: debug the swipe gesture...'`. -/
theorem classification_and_detection_independent (lower : JSString → JSString)
    (hl : LowersAscii lower) (o : OpenALaw) (c : OpenALawCore) (now : Int)
    (hc : o.core = some c) :
    (OpenALawCore.determineExecutionTarget lower (units "debug the swipe gesture") =
        units "local" ∧
      OpenALaw.requiresSystemInteraction lower (units "debug the swipe gesture") = true) ∧
    (OpenALawCore.determineExecutionTarget lower (units "hello") = units "local" ∧
      OpenALaw.requiresSystemInteraction lower (units "hello") = false) ∧
    (OpenALawCore.determineExecutionTarget lower (units "Analyze this input") =
        units "remote" ∧
      OpenALaw.requiresSystemInteraction lower (units "Analyze this input") = true) ∧
    (OpenALawCore.determineExecutionTarget lower (units "summarize this text") =
        units "remote" ∧
      OpenALaw.requiresSystemInteraction lower (units "summarize this text") = false) ∧
    OpenALaw.processTask lower o (units "debug the swipe gesture") now =
      (.ok (.obj [("core", .str (units "[LOCAL] Processed: debug the swipe gesture...")),
                  ("system", .obj [("success", .bool false),
                    ("reason", .str (units "System task not implemented yet"))]),
                  ("combined", .bool true)]), o) := by
  have e1 := hl (units "debug the swipe gesture") (by decide)
  have e2 := hl (units "hello") (by decide)
  have e3 := hl (units "Analyze this input") (by decide)
  have e4 := hl (units "summarize this text") (by decide)
  have t1 : OpenALawCore.determineExecutionTarget lower (units "debug the swipe gesture") =
      units "local" := by
    simp only [OpenALawCore.determineExecutionTarget, e1]
    decide
  have r1 : OpenALaw.requiresSystemInteraction lower (units "debug the swipe gesture") = true := by
    simp only [OpenALaw.requiresSystemInteraction, e1]
    decide
  refine ⟨⟨t1, r1⟩, ⟨?_, ?_⟩, ⟨?_, ?_⟩, ⟨?_, ?_⟩, ?_⟩
  · simp only [OpenALawCore.determineExecutionTarget, e2]
    decide
  · simp only [OpenALaw.requiresSystemInteraction, e2]
    decide
  · simp only [OpenALawCore.determineExecutionTarget, e3]
    decide
  · simp only [OpenALaw.requiresSystemInteraction, e3]
    decide
  · simp only [OpenALawCore.determineExecutionTarget, e4]
    decide
  · simp only [OpenALaw.requiresSystemInteraction, e4]
    decide
  · rw [orchestrator_processTask_fallthrough lower o c _ now hc r1
      (by rw [e1]; decide) (by rw [e1]; decide) (by rw [e1]; decide), t1, if_pos rfl]
    rfl

theorem classification_and_detection_independent_witness :
    LowersAscii asciiToLowerCase ∧
    (OpenALaw.ready .undefined).core = some (OpenALawCore.ready .undefined) ∧
    OpenALaw.processTask asciiToLowerCase (OpenALaw.ready .undefined)
        (units "debug the swipe gesture") 0 =
      (.ok (.obj [("core", .str (units "[LOCAL] Processed: debug the swipe gesture...")),
                  ("system", .obj [("success", .bool false),
                    ("reason", .str (units "System task not implemented yet"))]),
                  ("combined", .bool true)]), OpenALaw.ready .undefined) :=
  ⟨asciiToLowerCase_lowersAscii, rfl,
    (classification_and_detection_independent asciiToLowerCase asciiToLowerCase_lowersAscii
      (OpenALaw.ready .undefined) (OpenALawCore.ready .undefined) 0 rfl).2.2.2.2⟩

/-! ## The bridge: what its operations leave alone -/

theorem bridge_run_frame (b : AndroidCoreBridge) (calls : List BridgeCall)
    (h : ∀ call ∈ calls, call.isInitStep = false) : b.run calls = b := by
  induction calls with
  | nil => rfl
  | cons call rest ih =>
    have hcall := bridge_call_frame b call (h call (List.mem_cons_self _ _))
    have hrest := ih (fun k hk => h k (List.mem_cons_of_mem _ hk))
    show AndroidCoreBridge.run (b.call call).2 rest = b
    rw [hcall, hrest]

/-- C17: a call of any bridge method other than `initialize()` and the four methods it runs,
that is `captureScreen`, `getScreenInfo`, `simulateTouch`, `simulateGesture`, `sendKeyEvent`,
`sendText`, `swipe`, `tap`, `pressAndHold`, `getCurrentFocus`, `traverseUI`, `findElement`,
`performAction` or `getStatus`, leaves the bridge exactly as it was whether it returns or
throws, and so does any sequence of such calls: permissions, registry and flag are unchanged. -/
theorem bridge_operations_frame (b : AndroidCoreBridge) (calls : List BridgeCall)
    (h : ∀ call ∈ calls, call.isInitStep = false) :
    (∀ call ∈ calls, (b.call call).2 = b) ∧
    b.run calls = b ∧
    (b.run calls).permissions = b.permissions ∧
    (b.run calls).systemInterfaces = b.systemInterfaces ∧
    (b.run calls).initialized = b.initialized := by
  have hrun := bridge_run_frame b calls h
  refine ⟨fun call hc => bridge_call_frame b call (h call hc), hrun, ?_, ?_, ?_⟩ <;> rw [hrun]

theorem bridge_operations_frame_witness :
    (AndroidCoreBridge.ready.call (.sendText .null)).1 = .error .typeError ∧
    (AndroidCoreBridge.ready.call (.tap (.num 1) (.num 2))).1 =
      .ok (.obj [("success", .bool true), ("action", .str (units "tap")),
                 ("coordinates", .obj [("x", .num 1), ("y", .num 2)])]) ∧
    AndroidCoreBridge.ready.run
        [.sendText .null, .tap (.num 1) (.num 2), .captureScreen .undefined 3,
         .getStatus (units "now"), .pressAndHold (.num 1) (.num 2) .undefined, .getScreenInfo]
      = AndroidCoreBridge.ready :=
  ⟨rfl, rfl,
    (bridge_operations_frame AndroidCoreBridge.ready
      [.sendText .null, .tap (.num 1) (.num 2), .captureScreen .undefined 3,
       .getStatus (units "now"), .pressAndHold (.num 1) (.num 2) .undefined, .getScreenInfo]
      (by simp [BridgeCall.isInitStep])).2.1⟩

/-- C18: on an Orchestrator with an initialized bridge, for a task whose lower-cased form
holds `touch` or `click` and not `screen`: when `extractCoordinates(t)` is `null` the result
is `{success: false, reason: 'System task not implemented yet'}`; otherwise it is
`{success: true, action: 'tap', coordinates}` with `coordinates` equal to
`extractCoordinates(t)`, which is what `tap(x, y)` of the bridge returns for its `x`, `y`. -/
theorem handleSystemTask_touch (lower : JSString → JSString) (o : OpenALaw)
    (b : AndroidCoreBridge) (t : JSString) (now : Int) (hb : o.bridge = some b)
    (hi : b.initialized = true) (hs : ¬ units "screen" <:+: lower t)
    (ht : units "touch" <:+: lower t ∨ units "click" <:+: lower t) :
    (OpenALaw.extractCoordinates t = .null →
      OpenALaw.handleSystemTask lower o t now =
        (.ok (.obj [("success", .bool false),
                    ("reason", .str (units "System task not implemented yet"))]), o)) ∧
    (OpenALaw.extractCoordinates t ≠ .null →
      OpenALaw.handleSystemTask lower o t now =
        (.ok (.obj [("success", .bool true), ("action", .str (units "tap")),
                    ("coordinates", OpenALaw.extractCoordinates t)]), o)) ∧
    (∀ x y : Value, OpenALaw.extractCoordinates t = .obj [("x", x), ("y", y)] →
      (OpenALaw.handleSystemTask lower o t now).1 = (b.tap x y).1) ∧
    (OpenALaw.extractCoordinates t = .null ∨
      ∃ x y : Nat, OpenALaw.extractCoordinates t = .obj [("x", .num x), ("y", .num y)]) := by
  have e1 : ¬ includes (lower t) (units "screen") = true :=
    fun e => hs ((includes_iff _ _).1 e)
  have e2 : (includes (lower t) (units "touch") || includes (lower t) (units "click")) = true := by
    rcases ht with h | h
    · simp [(includes_iff _ _).2 h]
    · simp [(includes_iff _ _).2 h]
  have hres := handleSystemTask_eq lower o b t now hb hi
  rw [if_neg e1, if_pos e2] at hres
  rw [hres, extractCoordinates_eq]
  cases coordRegexSearch t with
  | none =>
    refine ⟨fun _ => rfl, fun h => absurd rfl h, ?_, Or.inl rfl⟩
    intro x y h
    simp at h
  | some m =>
    refine ⟨?_, fun _ => rfl, ?_, Or.inr ⟨parseInt m.x, parseInt m.y, rfl⟩⟩
    · intro h
      simp at h
    · intro x y h
      simp only [Value.obj.injEq, List.cons.injEq, Prod.mk.injEq, true_and, and_true] at h
      obtain ⟨hx, hy⟩ := h
      subst hx
      subst hy
      simp [AndroidCoreBridge.tap, simulateTouch_eq, Value.toStringThrows, hi,
        Value.orDefault]

theorem handleSystemTask_touch_witness :
    OpenALaw.extractCoordinates (units "Click at 10, 20") =
      .obj [("x", .num 10), ("y", .num 20)] ∧
    OpenALaw.handleSystemTask asciiToLowerCase (OpenALaw.ready .undefined)
        (units "Click at 10, 20") 0 =
      (.ok (.obj [("success", .bool true), ("action", .str (units "tap")),
                  ("coordinates", .obj [("x", .num 10), ("y", .num 20)])]),
        OpenALaw.ready .undefined) ∧
    OpenALaw.extractCoordinates (units "touch the button") = .null ∧
    OpenALaw.handleSystemTask asciiToLowerCase (OpenALaw.ready .undefined)
        (units "touch the button") 0 =
      (.ok (.obj [("success", .bool false),
                  ("reason", .str (units "System task not implemented yet"))]),
        OpenALaw.ready .undefined) :=
  have h1 := handleSystemTask_touch asciiToLowerCase (OpenALaw.ready .undefined)
    AndroidCoreBridge.ready (units "Click at 10, 20") 0 rfl rfl (by decide)
    (Or.inr (by decide))
  have h2 := handleSystemTask_touch asciiToLowerCase (OpenALaw.ready .undefined)
    AndroidCoreBridge.ready (units "touch the button") 0 rfl rfl (by decide)
    (Or.inl (by decide))
  ⟨by rfl, h1.2.1 (by simp [show OpenALaw.extractCoordinates (units "Click at 10, 20") =
      .obj [("x", .num 10), ("y", .num 20)] from by rfl]), by rfl, h2.1 (by rfl)⟩

/-- C19: the entry point's example is system-interacting.  Under any lower-casing that is
right on ASCII text, `processTask('Analyze this input')` on the Orchestrator built by
`new OpenALaw()` and `initialize()` returns the combined record with
`core: '[REMOTE] Processed: Analyze this input...'` and
`system: {success: false, reason: 'System task not implemented yet'}`: the task is routed
`remote`, holds the system keyword `input`, and holds none of `screen`, `touch`, `click`. -/
theorem entry_point_example (lower : JSString → JSString) (hl : LowersAscii lower)
    (now : Int) :
    OpenALaw.processTask lower (OpenALaw.ready .undefined) (units "Analyze this input") now =
      (.ok (.obj [("core", .str (units "[REMOTE] Processed: Analyze this input...")),
                  ("system", .obj [("success", .bool false),
                    ("reason", .str (units "System task not implemented yet"))]),
                  ("combined", .bool true)]), OpenALaw.ready .undefined) ∧
    OpenALawCore.determineExecutionTarget lower (units "Analyze this input") = units "remote" ∧
    OpenALaw.requiresSystemInteraction lower (units "Analyze this input") = true ∧
    units "input" ∈ OpenALaw.systemKeywords ∧
    units "input" <:+: lower (units "Analyze this input") ∧
    units "analyze" <:+: lower (units "Analyze this input") ∧
    ¬ units "screen" <:+: lower (units "Analyze this input") ∧
    ¬ units "touch" <:+: lower (units "Analyze this input") ∧
    ¬ units "click" <:+: lower (units "Analyze this input") := by
  have e := hl (units "Analyze this input") (by decide)
  have htarget : OpenALawCore.determineExecutionTarget lower (units "Analyze this input") =
      units "remote" := by
    simp only [OpenALawCore.determineExecutionTarget, e]
    decide
  have hreq : OpenALaw.requiresSystemInteraction lower (units "Analyze this input") = true := by
    simp only [OpenALaw.requiresSystemInteraction, e]
    decide
  refine ⟨?_, htarget, hreq, by decide, ?_, ?_, ?_, ?_, ?_⟩
  · rw [orchestrator_processTask_fallthrough lower (OpenALaw.ready .undefined)
      (OpenALawCore.ready .undefined) _ now rfl hreq
      (by rw [e]; decide) (by rw [e]; decide) (by rw [e]; decide), htarget,
      if_neg (fun h => local_ne_remote h.symm)]
    rfl
  · rw [e]
    decide
  · rw [e]
    decide
  · rw [e]
    decide
  · rw [e]
    decide
  · rw [e]
    decide

theorem entry_point_example_witness :
    LowersAscii asciiToLowerCase ∧
    OpenALaw.processTask asciiToLowerCase (OpenALaw.ready .undefined)
        (units "Analyze this input") 0 =
      (.ok (.obj [("core", .str (units "[REMOTE] Processed: Analyze this input...")),
                  ("system", .obj [("success", .bool false),
                    ("reason", .str (units "System task not implemented yet"))]),
                  ("combined", .bool true)]), OpenALaw.ready .undefined) :=
  ⟨asciiToLowerCase_lowersAscii,
    (entry_point_example asciiToLowerCase asciiToLowerCase_lowersAscii 0).1⟩

/-- C20, the claim as stated, fails: on the initialized bridge
`swipe({toString: 1}, 0, 5, 5, 10)` and `tap({toString: 1}, 0)` return no record; the log line
of `simulateGesture` and of `simulateTouch` cannot convert the coordinate to a string and
throws a `TypeError`. -/
theorem swipe_record_counterexample :
    AndroidCoreBridge.ready.initialized = true ∧
    AndroidCoreBridge.ready.swipe (.obj [("toString", .num 1)]) (.num 0) (.num 5) (.num 5)
        (.num 10) = (.error .typeError, AndroidCoreBridge.ready) ∧
    AndroidCoreBridge.ready.tap (.obj [("toString", .num 1)]) (.num 0) =
      (.error .typeError, AndroidCoreBridge.ready) := by
  refine ⟨rfl, rfl, rfl⟩

/-- C20, amended: on an initialized bridge `swipe(startX, startY, endX, endY, steps)` has, for
every `steps`, exactly the outcome of `simulateGesture(startX, startY, endX, endY, 200)`:
the record `{success: true, gesture: 'swipe', start, end, duration: 200}`, in which `steps`
does not appear, when the four coordinates convert to strings, and the `TypeError` of the log
line when one does not.  Likewise `tap(x, y)` is `simulateTouch(x, y, 'tap')`: the record
`{success: true, action: 'tap', coordinates: {x, y}}` when `x` and `y` convert, a `TypeError`
when one does not.  Numbers convert, as do all values other than an object with an own
`toString` property or an array holding one. -/
theorem swipe_ignores_steps (b : AndroidCoreBridge) (hi : b.initialized = true)
    (startX startY endX endY steps steps2 x y : Value) :
    b.swipe startX startY endX endY steps =
      b.simulateGesture startX startY endX endY (.num 200) ∧
    b.swipe startX startY endX endY steps = b.swipe startX startY endX endY steps2 ∧
    (startX.toStringThrows = false → startY.toStringThrows = false →
      endX.toStringThrows = false → endY.toStringThrows = false →
      b.swipe startX startY endX endY steps =
        (.ok (.obj [("success", .bool true), ("gesture", .str (units "swipe")),
                    ("start", .obj [("x", startX), ("y", startY)]),
                    ("end", .obj [("x", endX), ("y", endY)]),
                    ("duration", .num 200)]), b)) ∧
    (startX.toStringThrows = true ∨ startY.toStringThrows = true ∨
        endX.toStringThrows = true ∨ endY.toStringThrows = true →
      b.swipe startX startY endX endY steps = (.error .typeError, b)) ∧
    b.tap x y = b.simulateTouch x y (.str (units "tap")) ∧
    (x.toStringThrows = false → y.toStringThrows = false →
      b.tap x y =
        (.ok (.obj [("success", .bool true), ("action", .str (units "tap")),
                    ("coordinates", .obj [("x", x), ("y", y)])]), b)) ∧
    (x.toStringThrows = true ∨ y.toStringThrows = true →
      b.tap x y = (.error .typeError, b)) ∧
    (∀ n : Int, (Value.num n).toStringThrows = false) ∧
    (∀ fields : List (String × Value),
      (Value.obj fields).toStringThrows = true ↔ ∃ v, Obj.get fields "toString" = some v) ∧
    (∀ xs : List Value,
      (Value.arr xs).toStringThrows = true ↔ ∃ v ∈ xs, v.toStringThrows = true) := by
  refine ⟨rfl, rfl, ?_, ?_, rfl, ?_, ?_, fun _ => rfl, ?_, ?_⟩
  · intro h1 h2 h3 h4
    simp [AndroidCoreBridge.swipe, simulateGesture_eq, hi, h1, h2, h3, h4, Value.orDefault,
      Value.toStringThrows]
  · intro h1
    rw [AndroidCoreBridge.swipe, simulateGesture_eq, if_neg (by simp [hi]),
      if_pos (by
        simp only [List.any_cons, List.any_nil, Bool.or_false, Bool.or_eq_true]
        rcases h1 with h1 | h1 | h1 | h1
        · exact Or.inl h1
        · exact Or.inr (Or.inl h1)
        · exact Or.inr (Or.inr (Or.inl h1))
        · exact Or.inr (Or.inr (Or.inr (Or.inl h1))))]
  · intro h1 h2
    simp [AndroidCoreBridge.tap, simulateTouch_eq, hi, h1, h2, Value.orDefault,
      Value.toStringThrows]
  · intro h1
    rw [AndroidCoreBridge.tap, simulateTouch_eq, if_neg (by simp [hi]),
      if_pos (by
        simp only [List.any_cons, List.any_nil, Bool.or_false, Bool.or_eq_true]
        rcases h1 with h1 | h1
        · exact Or.inr (Or.inl h1)
        · exact Or.inr (Or.inr h1))]
  · intro fields
    simp [Value.toStringThrows, Option.isSome_iff_exists]
  · intro xs
    simp [Value.toStringThrows, joinThrows_iff]

theorem swipe_ignores_steps_witness :
    AndroidCoreBridge.ready.initialized = true ∧
    AndroidCoreBridge.ready.swipe (.num 1) (.num 2) (.num 3) (.num 4) (.num 77) =
      (.ok (.obj [("success", .bool true), ("gesture", .str (units "swipe")),
                  ("start", .obj [("x", .num 1), ("y", .num 2)]),
                  ("end", .obj [("x", .num 3), ("y", .num 4)]),
                  ("duration", .num 200)]), AndroidCoreBridge.ready) ∧
    Value.num 77 ∉
      (Value.obj [("success", .bool true), ("gesture", .str (units "swipe")),
                  ("start", .obj [("x", .num 1), ("y", .num 2)]),
                  ("end", .obj [("x", .num 3), ("y", .num 4)]),
                  ("duration", .num 200)]).parts :=
  ⟨rfl,
    (swipe_ignores_steps AndroidCoreBridge.ready rfl (.num 1) (.num 2) (.num 3) (.num 4)
      (.num 77) .undefined .undefined .undefined).2.2.1 rfl rfl rfl rfl,
    by simp [Value.parts, Value.partsFields, Value.partsList]⟩
